import Mathlib

/-!
Verification of the chess-arena tournament and match orchestration engine
(src/app.py, src/models.py).

The Python program keeps two global in-memory registries (`rooms` and
`active_matches`), a durable store (Users, Tournaments, Matches), and an
event/broadcast layer.  We embed this shallowly: the global state is a
`GState` record whose fields mirror the registries and the durable tables,
and every socket handler of app.py becomes a pure function
`GState → ... → GState`.  Broadcasts are modelled as events appended to an
event log inside the state; payloads are kept only to the extent the
verified properties inspect them.

Two pieces of the source are inherently non-deterministic or non-exact and
are treated as parameters:
  * `random.shuffle` inside `generate_bracket` is a `shuffle` parameter
    (a function on lists; theorems that need it assume it permutes its
    input);
  * `calculate_elo` computes with IEEE floats; the state machine takes the
    integer-valued rating update as a parameter `eloFn`, and the arithmetic
    of `calculate_elo` itself is modelled separately over the reals.
Timestamps (`datetime.utcnow()`) are modelled as a `now : Nat` parameter.
-/

namespace ChessArena

/-- Durable `User` row (models.py, class User): cumulative counters and the
integer Elo rating. -/
structure User where
  username : String
  total_matches : Nat
  total_wins : Nat
  total_losses : Nat
  total_draws : Nat
  tournaments_played : Nat
  tournament_wins : Nat
  elo_rating : Int
deriving DecidableEq

/-- Durable `Match` row (models.py, class Match). `winner`/`result` are
nullable; `completed_at` is the write timestamp (modelled as a Nat). -/
structure MatchRec where
  id : Nat
  tournament_id : Nat
  round_name : String
  white_player : String
  black_player : String
  winner : Option String
  result : Option String
  time_control : Int
  status : String
  completed_at : Option Nat
deriving DecidableEq

/-- Durable `Tournament` row (models.py, class Tournament); `participants`
and `rounds` are the JSON-encoded lists, modelled structurally. -/
structure Tournament where
  id : Nat
  room_code : String
  admin_username : String
  status : String
  participants : List String
  winner_username : Option String
  current_round : String
  rounds : List (String × List (String × String))
  completed_at : Option Nat
deriving DecidableEq

/-- One entry of the in-memory `room['bracket']` list (app.py). Bye entries
have `match_id = none`. -/
structure BracketEntry where
  white : String
  black : String
  winner : Option String
  status : String
  match_id : Option Nat
deriving DecidableEq

/-- In-memory room session (`rooms[room_code]` in app.py). `players` maps a
username to its connection sid (modelled as a Nat). -/
structure Room where
  tournament_id : Nat
  admin : String
  players : List (String × Nat)
  match_requests : List ((String × String) × Int)
  bracket : List BracketEntry
  status : String
  default_time : Int
deriving DecidableEq

/-- In-memory match session (`active_matches[match_id]` in app.py). -/
structure MatchState where
  room_code : String
  white : String
  black : String
  white_time : Int
  black_time : Int
  turn : String
  fen : String
  status : String
deriving DecidableEq

/-- Emitted notifications. Payloads are retained only where a verified
property inspects them (player_left / kicked / error text / winner). -/
inductive Event where
  | errorMsg (msg : String)
  | roomEvent (room : String) (name : String)
  | playerLeft (room : String) (username : String)
  | kicked (sid : Nat)
  | joinedRoom (room : String) (username : String)
  | gameEnded (match_id : Nat) (winner : Option String) (result : Option String)
  | matchResult (room : String) (match_id : Nat) (winner : Option String)
  | tournamentComplete (room : String) (winner : String)
  | newRound (room : String) (round_name : String)
  | tournamentStarted (room : String) (round_name : String)
  | matchStarted (sid : Nat) (match_id : Nat) (color : String)
  | timerUpdate (match_id : Nat) (white_time black_time : Int)
  | moveMade (match_id : Nat)
deriving DecidableEq

/-- The whole observable program state: the two in-memory registries, the
three durable tables, a fresh-id counter for Match rows, and the log of
events emitted so far. -/
structure GState where
  rooms : List (String × Room)
  active_matches : List (Nat × MatchState)
  users : List User
  tournaments : List Tournament
  matchRows : List MatchRec
  next_match_id : Nat
  events : List Event
deriving DecidableEq

/-! ### Association-list primitives (Python dict semantics, unique keys) -/

/-- Dictionary lookup: first binding of the key. -/
def alookup {α β : Type} [DecidableEq α] : List (α × β) → α → Option β
  | [], _ => none
  | (k₂, v) :: rest, k => if k₂ = k then some v else alookup rest k

/-- Dictionary assignment `d[k] = v`: replaces the first binding in place,
appends (insertion order) if the key is absent. -/
def aupdate {α β : Type} [DecidableEq α] : List (α × β) → α → β → List (α × β)
  | [], k, v => [(k, v)]
  | (k₂, v₂) :: rest, k, v =>
    if k₂ = k then (k, v) :: rest else (k₂, v₂) :: aupdate rest k v

/-- Dictionary deletion `del d[k]` / `d.pop(k)`: removes the bindings of the
key (a dict holds at most one). -/
def aerase {α β : Type} [DecidableEq α] : List (α × β) → α → List (α × β)
  | [], _ => []
  | (k₂, v) :: rest, k => if k₂ = k then aerase rest k else (k₂, v) :: aerase rest k

/-! ### Durable-table primitives (unique usernames / ids) -/

/-- `User.query.filter_by(username=name).first()`. -/
def findUser : List User → String → Option User
  | [], _ => none
  | u :: rest, name => if u.username = name then some u else findUser rest name

/-- Mutation of the (unique) user row with the given username; identity when
the row is absent (mirrors the `if user:` guards in app.py). -/
def updateUser (users : List User) (name : String) (f : User → User) : List User :=
  users.map fun u => if u.username = name then f u else u

/-- `Tournament.query.get(tid)`. -/
def findT : List Tournament → Nat → Option Tournament
  | [], _ => none
  | t :: rest, tid => if t.id = tid then some t else findT rest tid

/-- Mutation of the (unique) tournament row with the given id. -/
def updateT (ts : List Tournament) (tid : Nat) (f : Tournament → Tournament) :
    List Tournament :=
  ts.map fun t => if t.id = tid then f t else t

/-- `Match.query.get(mid)`. -/
def findMatch : List MatchRec → Nat → Option MatchRec
  | [], _ => none
  | m :: rest, mid => if m.id = mid then some m else findMatch rest mid

/-- Mutation of the (unique) match row with the given id. -/
def updateMatch (ms : List MatchRec) (mid : Nat) (f : MatchRec → MatchRec) :
    List MatchRec :=
  ms.map fun m => if m.id = mid then f m else m

/-! ### Pure functions of app.py -/

/-- app.py `get_round_name`. -/
def get_round_name (num_players : Nat) : String :=
  if num_players ≤ 2 then "Final"
  else if num_players ≤ 4 then "Semi Final"
  else if num_players ≤ 8 then "Quarter Final"
  else "Round of 16"

/-- The pairing loop of app.py `generate_bracket`, applied to the already
shuffled list: consecutive pairs; an odd trailing participant is paired with
the bye sentinel. -/
def pairUp : List String → List (String × String)
  | [] => []
  | [x] => [(x, "BYE")]
  | x :: y :: rest => (x, y) :: pairUp rest

/-- app.py `generate_bracket`: `random.shuffle(players)` then pair
consecutively; the shuffle is a parameter. -/
def generate_bracket (shuffle : List String → List String)
    (players : List String) : List (String × String) :=
  pairUp (shuffle players)

/-- The starting-position FEN literal used for every new match session. -/
def startFen : String :=
  "rnbqkbnr/pppppppp/8/8/8/8/PPPPPPPP/RNBQKBNR w KQkq - 0 1"

/-! ### Broadcast helpers of app.py -/

/-- The notifications produced by app.py `emit_room_update`: nothing when
the room is gone, otherwise a roster update to the room (payload elided). -/
def roomUpdateEvents (st : GState) (room_code : String) : List Event :=
  match alookup st.rooms room_code with
  | none => []
  | some _ => [Event.roomEvent room_code "room_update"]

/-- app.py `emit_room_update`. -/
def emit_room_update (st : GState) (room_code : String) : GState :=
  { st with events := st.events ++ roomUpdateEvents st room_code }

/-- The notifications produced by app.py `emit_leaderboard`: nothing when
the room or its backing tournament is gone, otherwise the leaderboard
broadcast (payload elided). -/
def leaderboardEvents (st : GState) (room_code : String) : List Event :=
  match alookup st.rooms room_code with
  | none => []
  | some room =>
    match findT st.tournaments room.tournament_id with
    | none => []
    | some _ => [Event.roomEvent room_code "leaderboard_update"]

/-- app.py `emit_leaderboard`. -/
def emit_leaderboard (st : GState) (room_code : String) : GState :=
  { st with events := st.events ++ leaderboardEvents st room_code }

/-! ### Match termination (app.py `handle_match_end`) -/

/-- The two `total_matches += 1` updates at the head of the statistics
block of `handle_match_end`. -/
def bumpTotalMatches (users : List User) (m : MatchRec) : List User :=
  updateUser
    (updateUser users m.white_player
      (fun u => { u with total_matches := u.total_matches + 1 }))
    m.black_player (fun u => { u with total_matches := u.total_matches + 1 })

/-- The player-statistics block of `handle_match_end`: both users must exist
(`if white_user and black_user:`), both get `total_matches += 1`; a draw
increments both draw counters; a winner equal to the white (resp. black)
player updates win/loss counters and applies the rating update `eloFn`
(the integer-valued result of `calculate_elo`, read off the ratings as they
were before this match) to both ratings; any other winner value updates no
further counters. -/
def applyMatchStats (eloFn : Int → Int → Int × Int) (users : List User)
    (m : MatchRec) (winner : Option String) (result : Option String) : List User :=
  match findUser users m.white_player, findUser users m.black_player with
  | some wu, some bu =>
    if result = some "draw" then
      updateUser
        (updateUser (bumpTotalMatches users m) m.white_player
          (fun u => { u with total_draws := u.total_draws + 1 }))
        m.black_player (fun u => { u with total_draws := u.total_draws + 1 })
    else if winner = some m.white_player then
      updateUser
        (updateUser (bumpTotalMatches users m) m.white_player
          (fun u => { u with total_wins := u.total_wins + 1,
                             elo_rating := (eloFn wu.elo_rating bu.elo_rating).1 }))
        m.black_player
        (fun u => { u with total_losses := u.total_losses + 1,
                           elo_rating := (eloFn wu.elo_rating bu.elo_rating).2 })
    else if winner = some m.black_player then
      updateUser
        (updateUser (bumpTotalMatches users m) m.black_player
          (fun u => { u with total_wins := u.total_wins + 1,
                             elo_rating := (eloFn bu.elo_rating wu.elo_rating).1 }))
        m.white_player
        (fun u => { u with total_losses := u.total_losses + 1,
                           elo_rating := (eloFn bu.elo_rating wu.elo_rating).2 })
    else bumpTotalMatches users m
  | _, _ => users

/-- The bracket-entry update inside `handle_match_end`: find the first entry
whose `match_id` matches, record winner and completed status, stop
(`break`). -/
def updateBracketEntry : List BracketEntry → Nat → Option String → List BracketEntry
  | [], _, _ => []
  | e :: rest, mid, w =>
    if e.match_id = some mid then { e with winner := w, status := "completed" } :: rest
    else e :: updateBracketEntry rest mid w

/-- The pairing loop shared by `on_start_tournament` and
`check_round_complete`: for each pair, a BYE side yields a completed bracket
entry with no Match row; otherwise a fresh pending Match row is created
(`db.session.add` / `flush` assigns the next id) together with a pending
bracket entry. -/
def buildRound (tid : Nat) (round_name : String) (tc : Int) :
    List (String × String) → GState → List BracketEntry → GState × List BracketEntry
  | [], st, br => (st, br)
  | (white, black) :: rest, st, br =>
    if black = "BYE" then
      buildRound tid round_name tc rest st
        (br ++ [{ white := white, black := "BYE", winner := some white,
                  status := "completed", match_id := none }])
    else
      let mid := st.next_match_id
      let mrec : MatchRec :=
        { id := mid, tournament_id := tid, round_name := round_name,
          white_player := white, black_player := black, winner := none,
          result := none, time_control := tc, status := "pending",
          completed_at := none }
      buildRound tid round_name tc rest
        { st with matchRows := st.matchRows ++ [mrec], next_match_id := mid + 1 }
        (br ++ [{ white := white, black := black, winner := none,
                  status := "pending", match_id := some mid }])

/-- The `for username in room['players']` loop of `check_round_complete`:
every present player's `tournaments_played` counter is incremented. -/
def incTournamentsPlayed : List (String × Nat) → List User → List User
  | [], us => us
  | (name, _) :: rest, us =>
    incTournamentsPlayed rest
      (updateUser us name (fun u => { u with tournaments_played := u.tournaments_played + 1 }))

/-- The Match rows of the tournament's current round
(`Match.query.filter_by(tournament_id=..., round_name=...)`). -/
def currentRoundMatches (st : GState) (tid : Nat) (round : String) : List MatchRec :=
  st.matchRows.filter fun m => m.tournament_id == tid && m.round_name == round

/-- The winner-collection loop of `check_round_complete`: the stored winner
of every row, skipping rows whose winner is null, empty (Python falsiness of
the empty string), or the bye sentinel. -/
def roundWinners (crm : List MatchRec) : List String :=
  crm.filterMap fun m =>
    match m.winner with
    | some w => if w ≠ "" ∧ w ≠ "BYE" then some w else none
    | none => none

/-- app.py `check_round_complete` (the Round Advancement Coordinator):
reads all Match rows of the tournament's current round; if all are
completed, collects their winners; one winner completes the tournament,
otherwise the next round is generated from the winners.  `shuffle` stands
for `random.shuffle` inside `generate_bracket`; `now` for
`datetime.utcnow()`. -/
def check_round_complete (shuffle : List String → List String) (now : Nat)
    (st : GState) (room_code : String) : GState :=
  match alookup st.rooms room_code with
  | none => st
  | some room =>
    match findT st.tournaments room.tournament_id with
    | none => st
    | some t =>
      if t.status = "active" then
        if (currentRoundMatches st room.tournament_id t.current_round).all
            (fun m => m.status == "completed") then
          match roundWinners (currentRoundMatches st room.tournament_id t.current_round) with
          | [w] =>
            let st := { st with
              tournaments := updateT st.tournaments t.id (fun t₂ =>
                { t₂ with status := "completed", winner_username := some w,
                          completed_at := some now }),
              rooms := aupdate st.rooms room_code { room with status := "completed" } }
            let st := { st with
              users := updateUser st.users w
                (fun u => { u with tournament_wins := u.tournament_wins + 1 }) }
            let st := { st with users := incTournamentsPlayed room.players st.users }
            let st := { st with events := st.events ++ [Event.tournamentComplete room_code w] }
            emit_leaderboard st room_code
          | ws =>
            let round_name := get_round_name ws.length
            let pairs := generate_bracket shuffle ws
            let stbr := buildRound room.tournament_id round_name room.default_time pairs st []
            let st := stbr.1
            let st := { st with
              tournaments := updateT st.tournaments t.id (fun t₂ =>
                { t₂ with current_round := round_name,
                          rounds := t₂.rounds ++ [(round_name, pairs)] }),
              rooms := aupdate st.rooms room_code { room with bracket := stbr.2 } }
            let st := { st with events := st.events ++ [Event.newRound room_code round_name] }
            emit_leaderboard st room_code
        else st
      else st

/-- app.py `handle_match_end` (the single termination routine).  Gate: the
in-memory session must exist with status active, else no-op.  The session is
marked completed in place; if the durable Match row is missing the handler
returns right there (the session is left behind).  Otherwise: terminal write
of winner/result/timestamp, player statistics, `game_ended` broadcast;
if the owning room is live, bracket update, `match_result` broadcast,
leaderboard, and (for non-Friendly rounds) round advancement; finally the
unconditional session delete. -/
def handle_match_end (eloFn : Int → Int → Int × Int)
    (shuffle : List String → List String) (now : Nat) (st : GState)
    (match_id : Nat) (winner : Option String) (result : Option String) : GState :=
  match alookup st.active_matches match_id with
  | none => st
  | some stt =>
    if stt.status = "active" then
      let st := { st with
        active_matches := aupdate st.active_matches match_id { stt with status := "completed" } }
      match findMatch st.matchRows match_id with
      | none => st
      | some m =>
        let st := { st with
          matchRows := updateMatch st.matchRows match_id (fun m₂ =>
            { m₂ with status := "completed", winner := winner, result := result,
                      completed_at := some now }) }
        let st := { st with users := applyMatchStats eloFn st.users m winner result }
        let st := { st with events := st.events ++ [Event.gameEnded match_id winner result] }
        let st :=
          match alookup st.rooms stt.room_code with
          | none => st
          | some room =>
            let st := { st with
              rooms := aupdate st.rooms stt.room_code
                { room with bracket := updateBracketEntry room.bracket match_id winner } }
            let st := { st with
              events := st.events ++ [Event.matchResult stt.room_code match_id winner] }
            let st := emit_leaderboard st stt.room_code
            if m.round_name = "Friendly" then st
            else check_round_complete shuffle now st stt.room_code
        { st with active_matches := aerase st.active_matches match_id }
    else st

/-! ### Socket event handlers of app.py -/

/-- app.py `on_update_timer`: only the player holding the white side of an
active session is accepted; both stored clocks are overwritten; a
non-positive white clock terminates with the black player as winner, else a
non-positive black clock terminates with the white player as winner, else
the clocks are broadcast. -/
def on_update_timer (eloFn : Int → Int → Int × Int)
    (shuffle : List String → List String) (now : Nat) (st : GState)
    (username : Option String) (match_id : Nat) (white_time black_time : Int) : GState :=
  match alookup st.active_matches match_id with
  | none => st
  | some state =>
    if state.status = "active" then
      if username = some state.white then
        let state := { state with white_time := white_time, black_time := black_time }
        let st := { st with active_matches := aupdate st.active_matches match_id state }
        if white_time ≤ 0 then
          handle_match_end eloFn shuffle now st match_id (some state.black) (some "timeout")
        else if black_time ≤ 0 then
          handle_match_end eloFn shuffle now st match_id (some state.white) (some "timeout")
        else
          { st with events := st.events ++ [Event.timerUpdate match_id white_time black_time] }
      else st
    else st

/-- app.py `on_game_over`: any of the two session players may report; the
client-supplied result and winner are passed to termination verbatim. -/
def on_game_over (eloFn : Int → Int → Int × Int)
    (shuffle : List String → List String) (now : Nat) (st : GState)
    (username : Option String) (match_id : Nat)
    (result : Option String) (winner : Option String) : GState :=
  match alookup st.active_matches match_id with
  | none => st
  | some state =>
    if state.status = "active" then
      match username with
      | none => st
      | some u =>
        if u = state.white ∨ u = state.black then
          handle_match_end eloFn shuffle now st match_id winner result
        else st
    else st

/-- app.py `on_resign`: the resigner must be a session player; the winner is
forced to the opponent. -/
def on_resign (eloFn : Int → Int → Int × Int)
    (shuffle : List String → List String) (now : Nat) (st : GState)
    (username : Option String) (match_id : Nat) : GState :=
  match alookup st.active_matches match_id with
  | none => st
  | some state =>
    if state.status = "active" then
      match username with
      | none => st
      | some u =>
        if u = state.white ∨ u = state.black then
          let winner := if u = state.white then state.black else state.white
          handle_match_end eloFn shuffle now st match_id (some winner) (some "resignation")
        else st
    else st

/-- app.py `on_make_move`: requires an active session, the mover on turn,
and a move payload naming both squares (Python truthiness: a missing or
empty square string is malformed); on success stores the client FEN, flips
the turn and broadcasts. -/
def on_make_move (st : GState) (username : Option String) (match_id : Nat)
    (move : Option (String × String)) (fen_after : String) : GState :=
  match alookup st.active_matches match_id with
  | none => { st with events := st.events ++ [Event.errorMsg "Match not active"] }
  | some state =>
    if state.status = "active" then
      if state.turn = "w" ∧ username ≠ some state.white then
        { st with events := st.events ++ [Event.errorMsg "Not your turn"] }
      else if state.turn = "b" ∧ username ≠ some state.black then
        { st with events := st.events ++ [Event.errorMsg "Not your turn"] }
      else
        match move with
        | none => { st with events := st.events ++ [Event.errorMsg "Invalid move format"] }
        | some (mfrom, mto) =>
          if mfrom = "" ∨ mto = "" then
            { st with events := st.events ++ [Event.errorMsg "Invalid move format"] }
          else
            let state := { state with
              fen := fen_after
              turn := if state.turn = "w" then "b" else "w" }
            let st := { st with active_matches := aupdate st.active_matches match_id state }
            { st with events := st.events ++ [Event.moveMade match_id] }
    else { st with events := st.events ++ [Event.errorMsg "Match not active"] }

/-- app.py `on_join_room`: rejects when not logged in or the room is
unknown; rejects with the in-progress error when the room status is not
waiting AND the username is not currently a key of the room's `players`
dict; rejects when the room is full and the username is not present.
Otherwise registers the connection, appends the username to
`Tournament.participants` if absent, and notifies. -/
def on_join_room (st : GState) (username : Option String) (sid : Nat)
    (room_code : String) : GState :=
  match username with
  | none => { st with events := st.events ++ [Event.errorMsg "Invalid room or not logged in"] }
  | some username =>
    match alookup st.rooms room_code with
    | none => { st with events := st.events ++ [Event.errorMsg "Invalid room or not logged in"] }
    | some room =>
      if room.status ≠ "waiting" ∧ alookup room.players username = none then
        { st with events := st.events ++ [Event.errorMsg "Tournament already in progress"] }
      else if room.players.length ≥ 10 ∧ alookup room.players username = none then
        { st with events := st.events ++ [Event.errorMsg "Room is full"] }
      else
        let room := { room with players := aupdate room.players username sid }
        let st := { st with rooms := aupdate st.rooms room_code room }
        let st :=
          match findT st.tournaments room.tournament_id with
          | none => st
          | some t =>
            { st with tournaments := updateT st.tournaments t.id (fun t₂ =>
                { t₂ with participants :=
                    if username ∈ t₂.participants then t₂.participants
                    else t₂.participants ++ [username] }) }
        let st := { st with events := st.events ++ [Event.joinedRoom room_code username] }
        emit_room_update st room_code

/-- The conditional `match_started` emit at the end of
`on_start_tournament`: a notification to the player's sid when the player
is connected, nothing otherwise. -/
def startNotice (players : List (String × Nat)) (mid : Nat) (name color : String) :
    List Event :=
  match alookup players name with
  | none => []
  | some sid => [Event.matchStarted sid mid color]

/-- One iteration of the session-creation loop at the end of
`on_start_tournament`: completed (bye) entries are skipped; a pending entry
gets an in-memory session with full clocks, its Match row is set active
(`if m:` in the source — `updateMatch` is the identity when the row is
absent), and both players are notified of their color (white first). -/
def startOneMatch (room_code : String) (players : List (String × Nat)) (tc : Int)
    (e : BracketEntry) (st : GState) : GState :=
  if e.status = "completed" then st
  else
    match e.match_id with
    | none => st
    | some mid =>
      let ms : MatchState :=
        { room_code := room_code, white := e.white, black := e.black,
          white_time := tc, black_time := tc, turn := "w", fen := startFen,
          status := "active" }
      { st with
        active_matches := aupdate st.active_matches mid ms,
        matchRows := updateMatch st.matchRows mid (fun m => { m with status := "active" }),
        events := st.events ++ startNotice players mid e.white "white"
                            ++ startNotice players mid e.black "black" }

/-- The `for entry in bracket` session-creation loop of
`on_start_tournament`. -/
def startMatchesLoop (room_code : String) (players : List (String × Nat)) (tc : Int) :
    List BracketEntry → GState → GState
  | [], st => st
  | e :: rest, st =>
    startMatchesLoop room_code players tc rest (startOneMatch room_code players tc e st)

/-- app.py `on_start_tournament`: requires the caller to be the room admin
and 2 to 10 present players — there is no check of the current room or
tournament status.  The room is switched to active, the tournament row is
updated (participants snapshot, round name from the player count, a fresh
single-entry rounds log), the bracket is generated, pending Match rows are
created, then sessions are started and players notified.  If the backing
tournament row is missing, Python raises after the room was already
mutated, which the embedding renders by returning the partially updated
state. -/
def on_start_tournament (shuffle : List String → List String) (st : GState)
    (username : Option String) (room_code : String) (time_control : Int) : GState :=
  match username with
  | none => st
  | some username =>
    match alookup st.rooms room_code with
    | none => st
    | some room =>
      if username ≠ room.admin then
        { st with events := st.events ++ [Event.errorMsg "Only admin can start tournament"] }
      else
        let players := room.players.map (fun p => p.1)
        if players.length < 2 then
          { st with events := st.events ++ [Event.errorMsg "Need at least 2 players to start"] }
        else if players.length > 10 then
          { st with events := st.events ++ [Event.errorMsg "Maximum 10 players allowed"] }
        else
          let room := { room with status := "active", default_time := time_control }
          let st := { st with rooms := aupdate st.rooms room_code room }
          match findT st.tournaments room.tournament_id with
          | none => st
          | some _ =>
            let round_name := get_round_name players.length
            let pairs := generate_bracket shuffle players
            let stbr := buildRound room.tournament_id round_name time_control pairs st []
            let st := stbr.1
            let st := { st with
              tournaments := updateT st.tournaments room.tournament_id (fun t₂ =>
                { t₂ with status := "active", participants := players,
                          current_round := round_name,
                          rounds := [(round_name, pairs)] }) }
            let st := { st with
              rooms := aupdate st.rooms room_code { room with bracket := stbr.2 } }
            let st := { st with
              events := st.events ++ [Event.tournamentStarted room_code round_name] }
            let st := emit_leaderboard st room_code
            startMatchesLoop room_code room.players time_control stbr.2 st

/-- app.py `on_disconnect`: finds the first room containing the username,
removes the player, removes the username from `Tournament.participants`
when the tournament is still waiting, then broadcasts a roster update and
`player_left`. -/
def on_disconnect (st : GState) (username : Option String) : GState :=
  match username with
  | none => st
  | some username =>
    match st.rooms.find? (fun p => (alookup p.2.players username).isSome) with
    | none => st
    | some (room_code, room) =>
      let room := { room with players := aerase room.players username }
      let st := { st with rooms := aupdate st.rooms room_code room }
      let st :=
        if room.status = "waiting" then
          match findT st.tournaments room.tournament_id with
          | none => st
          | some t =>
            { st with tournaments := updateT st.tournaments t.id (fun t₂ =>
                { t₂ with participants := t₂.participants.erase username }) }
        else st
      let st := emit_room_update st room_code
      { st with events := st.events ++ [Event.playerLeft room_code username] }

/-- app.py `on_remove_player` (`admin_remove_player` event): admin-only;
when the target is present its connection is popped from `players`, the
target is sent a distinct kicked notice, and a roster update is broadcast.
Nothing else is cleaned up. -/
def on_remove_player (st : GState) (username : Option String)
    (room_code : String) (target : String) : GState :=
  match username with
  | none => st
  | some username =>
    match alookup st.rooms room_code with
    | none => st
    | some room =>
      if username ≠ room.admin then
        { st with events := st.events ++ [Event.errorMsg "Only admin can remove players"] }
      else
        match alookup room.players target with
        | none => st
        | some target_sid =>
          let room := { room with players := aerase room.players target }
          let st := { st with rooms := aupdate st.rooms room_code room }
          let st := { st with events := st.events ++ [Event.kicked target_sid] }
          emit_room_update st room_code

/-! ### The Rating Engine (app.py `calculate_elo`)

The Python function computes with floats; it is modelled over the real
numbers, with Python's `round` (banker's rounding, half to even) made
explicit. -/

/-- Python's built-in `round` on a real argument: nearest integer, ties to
even. -/
noncomputable def pyRound (x : ℝ) : ℤ :=
  if x - ⌊x⌋ < 1 / 2 then ⌊x⌋
  else if 1 / 2 < x - ⌊x⌋ then ⌊x⌋ + 1
  else if ⌊x⌋ % 2 = 0 then ⌊x⌋ else ⌊x⌋ + 1

/-- app.py `calculate_elo` with its default `k=32`, transcribed literally:
the expected score of the winner, its complement for the loser, and the two
rounded updates (the loser update is written `loser + k*(0 - expected_loser)`
exactly as in the source). -/
noncomputable def calculate_elo (winner_rating loser_rating : ℝ) : ℤ × ℤ :=
  let k : ℝ := 32
  let expected_winner : ℝ := 1 / (1 + (10 : ℝ) ^ ((loser_rating - winner_rating) / 400))
  let expected_loser : ℝ := 1 - expected_winner
  let new_winner := pyRound (winner_rating + k * (1 - expected_winner))
  let new_loser := pyRound (loser_rating + k * (0 - expected_loser))
  (new_winner, new_loser)

/-- The expected-winner score exactly as the specification words it. -/
noncomputable def specExpectedWinner (winner_rating loser_rating : ℝ) : ℝ :=
  1 / (1 + (10 : ℝ) ^ ((loser_rating - winner_rating) / 400))

/-! ### Concrete states used by counterexamples and witnesses -/

/-- A fresh user row, with the defaults of models.py. -/
def mkUser (name : String) : User :=
  { username := name, total_matches := 0, total_wins := 0, total_losses := 0,
    total_draws := 0, tournaments_played := 0, tournament_wins := 0,
    elo_rating := 1200 }

/-- Identity instantiation of the shuffle parameter (a permutation). -/
def idShuffle : List String → List String := fun l => l

/-- A concrete integer-valued instantiation of the rating-update parameter,
used only to instantiate witnesses. -/
def eloK16 : Int → Int → Int × Int := fun w l => (w + 16, l - 16)

/-- Scenario for C1: a 3-player tournament ("alice", "bob", "carol") in its
first round "Semi Final"; alice beat bob in the only Match row, carol holds
the bye (bracket entry with no Match row, already marked completed with
carol as winner). -/
def c1State : GState :=
  { rooms := [("R1",
      { tournament_id := 1, admin := "alice",
        players := [("alice", 1), ("bob", 2), ("carol", 3)],
        match_requests := [],
        bracket :=
          [{ white := "alice", black := "bob", winner := some "alice",
             status := "completed", match_id := some 1 },
           { white := "carol", black := "BYE", winner := some "carol",
             status := "completed", match_id := none }],
        status := "active", default_time := 300 })],
    active_matches := [],
    users := [mkUser "alice", mkUser "bob", mkUser "carol"],
    tournaments := [
      { id := 1, room_code := "R1", admin_username := "alice", status := "active",
        participants := ["alice", "bob", "carol"], winner_username := none,
        current_round := "Semi Final",
        rounds := [("Semi Final", [("alice", "bob"), ("carol", "BYE")])],
        completed_at := none }],
    matchRows := [
      { id := 1, tournament_id := 1, round_name := "Semi Final",
        white_player := "alice", black_player := "bob", winner := some "alice",
        result := some "checkmate", time_control := 300, status := "completed",
        completed_at := some 5 }],
    next_match_id := 2, events := [] }

/-- Scenario for C3: a friendly match between "A" (white) and "B" (black)
with an active session and an active Match row. -/
def c3State : GState :=
  { rooms := [("R1",
      { tournament_id := 1, admin := "A", players := [("A", 1), ("B", 2)],
        match_requests := [], bracket := [], status := "waiting",
        default_time := 300 })],
    active_matches := [(1,
      { room_code := "R1", white := "A", black := "B", white_time := 300,
        black_time := 300, turn := "w", fen := startFen, status := "active" })],
    users := [mkUser "A", mkUser "B"],
    tournaments := [
      { id := 1, room_code := "R1", admin_username := "A", status := "waiting",
        participants := ["A", "B"], winner_username := none, current_round := "",
        rounds := [], completed_at := none }],
    matchRows := [
      { id := 1, tournament_id := 1, round_name := "Friendly",
        white_player := "A", black_player := "B", winner := none, result := none,
        time_control := 300, status := "active", completed_at := none }],
    next_match_id := 2, events := [] }

/-- Scenario for C4: a tournament already running (room and tournament
status "active", one active Final match between the 2 players, a 2-entry
historical rounds log). -/
def c4State : GState :=
  { rooms := [("R1",
      { tournament_id := 1, admin := "alice",
        players := [("alice", 1), ("bob", 2)], match_requests := [],
        bracket :=
          [{ white := "alice", black := "bob", winner := none,
             status := "pending", match_id := some 1 }],
        status := "active", default_time := 300 })],
    active_matches := [(1,
      { room_code := "R1", white := "alice", black := "bob", white_time := 300,
        black_time := 300, turn := "w", fen := startFen, status := "active" })],
    users := [mkUser "alice", mkUser "bob"],
    tournaments := [
      { id := 1, room_code := "R1", admin_username := "alice", status := "active",
        participants := ["alice", "bob"], winner_username := none,
        current_round := "Final",
        rounds := [("Semi Final", [("alice", "bob"), ("carol", "BYE")]),
                   ("Final", [("alice", "bob")])],
        completed_at := none }],
    matchRows := [
      { id := 1, tournament_id := 1, round_name := "Final",
        white_player := "alice", black_player := "bob", winner := none,
        result := none, time_control := 300, status := "active",
        completed_at := none }],
    next_match_id := 2, events := [] }

/-- Scenario for C5: an active tournament whose participant "alice" has
disconnected (so she is in `Tournament.participants` but no longer a key of
the room's `players`). -/
def c5State : GState :=
  { rooms := [("R1",
      { tournament_id := 1, admin := "alice", players := [("bob", 2)],
        match_requests := [], bracket := [], status := "active",
        default_time := 300 })],
    active_matches := [],
    users := [mkUser "alice", mkUser "bob"],
    tournaments := [
      { id := 1, room_code := "R1", admin_username := "alice", status := "active",
        participants := ["alice", "bob"], winner_username := none,
        current_round := "Final", rounds := [("Final", [("alice", "bob")])],
        completed_at := none }],
    matchRows := [], next_match_id := 1, events := [] }

/-- Scenario for C6: a waiting room with admin "alice" (sid 1) and "bob"
(sid 2), both tournament participants. -/
def c6State : GState :=
  { rooms := [("R1",
      { tournament_id := 1, admin := "alice",
        players := [("alice", 1), ("bob", 2)], match_requests := [],
        bracket := [], status := "waiting", default_time := 300 })],
    active_matches := [],
    users := [mkUser "alice", mkUser "bob"],
    tournaments := [
      { id := 1, room_code := "R1", admin_username := "alice",
        status := "waiting", participants := ["alice", "bob"],
        winner_username := none, current_round := "", rounds := [],
        completed_at := none }],
    matchRows := [], next_match_id := 1, events := [] }

/-- Scenario for C10: an active in-memory session whose match id 7 has no
durable Match row at all. -/
def c10State : GState :=
  { rooms := [],
    active_matches := [(7,
      { room_code := "GONE", white := "A", black := "B", white_time := 60,
        black_time := 60, turn := "w", fen := startFen, status := "active" })],
    users := [mkUser "A", mkUser "B"],
    tournaments := [], matchRows := [], next_match_id := 1, events := [] }

/-! ## Lemma layer -/

section Lemmas

variable {α β : Type} [DecidableEq α]

theorem alookup_aupdate_self (l : List (α × β)) (k : α) (v : β) :
    alookup (aupdate l k v) k = some v := by
  induction l with
  | nil => simp [aupdate, alookup]
  | cons p rest ih =>
    obtain ⟨k₂, v₂⟩ := p
    by_cases h : k₂ = k <;> simp [aupdate, alookup, h, ih]

theorem alookup_aupdate_ne (l : List (α × β)) (k k₂ : α) (v : β) (h : k₂ ≠ k) :
    alookup (aupdate l k v) k₂ = alookup l k₂ := by
  induction l with
  | nil => simp [aupdate, alookup, Ne.symm h]
  | cons p rest ih =>
    obtain ⟨k₃, v₃⟩ := p
    by_cases h₃ : k₃ = k
    · subst h₃; simp [aupdate, alookup, Ne.symm h]
    · by_cases h₄ : k₃ = k₂ <;> simp [aupdate, alookup, h₃, h₄, h, ih]

theorem alookup_aerase_self (l : List (α × β)) (k : α) :
    alookup (aerase l k) k = none := by
  induction l with
  | nil => simp [aerase, alookup]
  | cons p rest ih =>
    obtain ⟨k₂, v₂⟩ := p
    by_cases h : k₂ = k <;> simp [aerase, alookup, h, ih]

theorem alookup_aerase_ne (l : List (α × β)) (k k₂ : α) (h : k₂ ≠ k) :
    alookup (aerase l k) k₂ = alookup l k₂ := by
  induction l with
  | nil => simp [aerase, alookup]
  | cons p rest ih =>
    obtain ⟨k₃, v₃⟩ := p
    by_cases h₃ : k₃ = k
    · subst h₃; simp [aerase, alookup, Ne.symm h, ih]
    · by_cases h₄ : k₃ = k₂ <;> simp [aerase, alookup, h₃, h₄, h, ih]

end Lemmas

theorem findUser_some_username (users : List User) (n : String) (u : User)
    (h : findUser users n = some u) : u.username = n := by
  induction users with
  | nil => simp [findUser] at h
  | cons u₂ rest ih =>
    by_cases h₂ : u₂.username = n
    · simp [findUser, h₂] at h; subst h; exact h₂
    · simp [findUser, h₂] at h; exact ih h

theorem findUser_updateUser (users : List User) (name n₂ : String) (f : User → User)
    (hf : ∀ u, (f u).username = u.username) :
    findUser (updateUser users name f) n₂ =
      (findUser users n₂).map (fun u => if u.username = name then f u else u) := by
  induction users with
  | nil => simp [findUser, updateUser]
  | cons u rest ih =>
    simp only [updateUser, List.map_cons] at ih ⊢
    by_cases hn : u.username = name
    · by_cases h₂ : u.username = n₂
      · simp [findUser, hn, h₂, (hf u).trans h₂, hn.symm.trans h₂]
      · have h₃ : ¬ (f u).username = n₂ := by rw [hf u]; exact h₂
        have h₄ : ¬ name = n₂ := fun hc => h₂ (hn.trans hc)
        simp [findUser, hn, h₂, h₃, h₄, ih]
    · by_cases h₂ : u.username = n₂
      · have h₅ : ¬ n₂ = name := fun hc => hn (h₂.trans hc)
        simp [findUser, hn, h₂, h₅]
      · simp [findUser, hn, h₂, ih]

theorem findUser_updateUser_tm (users : List User) (name n₂ : String) (f : User → User)
    (hf : ∀ u, (f u).username = u.username)
    (htm : ∀ u, (f u).total_matches = u.total_matches) :
    (findUser (updateUser users name f) n₂).map (fun u => u.total_matches) =
      (findUser users n₂).map (fun u => u.total_matches) := by
  rw [findUser_updateUser users name n₂ f hf]
  cases h : findUser users n₂ with
  | none => rfl
  | some u => by_cases h₂ : u.username = name <;> simp [h₂, htm]

theorem findT_some_id (ts : List Tournament) (tid : Nat) (t : Tournament)
    (h : findT ts tid = some t) : t.id = tid := by
  induction ts with
  | nil => simp [findT] at h
  | cons t₂ rest ih =>
    by_cases h₂ : t₂.id = tid
    · simp [findT, h₂] at h; subst h; exact h₂
    · simp [findT, h₂] at h; exact ih h

theorem findT_updateT (ts : List Tournament) (tid tid₂ : Nat) (f : Tournament → Tournament)
    (hf : ∀ t, (f t).id = t.id) :
    findT (updateT ts tid f) tid₂ =
      (findT ts tid₂).map (fun t => if t.id = tid then f t else t) := by
  induction ts with
  | nil => simp [findT, updateT]
  | cons t rest ih =>
    simp only [updateT, List.map_cons] at ih ⊢
    by_cases hn : t.id = tid
    · by_cases h₂ : t.id = tid₂
      · simp [findT, hn, h₂, (hf t).trans h₂, hn.symm.trans h₂]
      · have h₃ : ¬ (f t).id = tid₂ := by rw [hf t]; exact h₂
        have h₄ : ¬ tid = tid₂ := fun hc => h₂ (hn.trans hc)
        simp [findT, hn, h₂, h₃, h₄, ih]
    · by_cases h₂ : t.id = tid₂
      · have h₅ : ¬ tid₂ = tid := fun hc => hn (h₂.trans hc)
        simp [findT, hn, h₂, h₅]
      · simp [findT, hn, h₂, ih]

theorem findMatch_some_id (ms : List MatchRec) (mid : Nat) (m : MatchRec)
    (h : findMatch ms mid = some m) : m.id = mid := by
  induction ms with
  | nil => simp [findMatch] at h
  | cons m₂ rest ih =>
    by_cases h₂ : m₂.id = mid
    · simp [findMatch, h₂] at h; subst h; exact h₂
    · simp [findMatch, h₂] at h; exact ih h

theorem findMatch_updateMatch (ms : List MatchRec) (mid mid₂ : Nat)
    (f : MatchRec → MatchRec) (hf : ∀ m, (f m).id = m.id) :
    findMatch (updateMatch ms mid f) mid₂ =
      (findMatch ms mid₂).map (fun m => if m.id = mid then f m else m) := by
  induction ms with
  | nil => simp [findMatch, updateMatch]
  | cons m rest ih =>
    simp only [updateMatch, List.map_cons] at ih ⊢
    by_cases hn : m.id = mid
    · by_cases h₂ : m.id = mid₂
      · simp [findMatch, hn, h₂, (hf m).trans h₂, hn.symm.trans h₂]
      · have h₃ : ¬ (f m).id = mid₂ := by rw [hf m]; exact h₂
        have h₄ : ¬ mid = mid₂ := fun hc => h₂ (hn.trans hc)
        simp [findMatch, hn, h₂, h₃, h₄, ih]
    · by_cases h₂ : m.id = mid₂
      · have h₅ : ¬ mid₂ = mid := fun hc => hn (h₂.trans hc)
        simp [findMatch, hn, h₂, h₅]
      · simp [findMatch, hn, h₂, ih]

theorem findMatch_append_left (l₁ l₂ : List MatchRec) (mid : Nat) (m : MatchRec)
    (h : findMatch l₁ mid = some m) : findMatch (l₁ ++ l₂) mid = some m := by
  induction l₁ with
  | nil => simp [findMatch] at h
  | cons m₂ rest ih =>
    by_cases h₂ : m₂.id = mid <;> simp [findMatch, h₂] at h ⊢
    · exact h
    · exact ih h

/-! ### Lemmas about the bracket generator -/

/-- The flattened slots of a pairing list, in order. -/
def bracketSlots : List (String × String) → List String
  | [] => []
  | pr :: rest => pr.1 :: pr.2 :: bracketSlots rest

/-- Whether a pair contains the bye sentinel. -/
def isByePair (pr : String × String) : Bool :=
  pr.1 == "BYE" || pr.2 == "BYE"

theorem pairUp_length : ∀ l : List String, (pairUp l).length = (l.length + 1) / 2
  | [] => rfl
  | [_] => by simp [pairUp]
  | x :: y :: rest => by
    simp only [pairUp, List.length_cons, pairUp_length rest]
    omega

theorem pairUp_slots : ∀ l : List String,
    bracketSlots (pairUp l) = l ++ (if l.length % 2 = 1 then ["BYE"] else [])
  | [] => rfl
  | [x] => rfl
  | x :: y :: rest => by
    have h : (rest.length + 1 + 1) % 2 = rest.length % 2 := by omega
    simp only [pairUp, bracketSlots, pairUp_slots rest, List.length_cons, h,
      List.cons_append]

theorem pairUp_byes : ∀ l : List String, "BYE" ∉ l →
    ((pairUp l).filter isByePair).length = if l.length % 2 = 1 then 1 else 0
  | [], _ => rfl
  | [x], _ => by simp [pairUp, isByePair, List.filter]
  | x :: y :: rest, h => by
    have hx : ¬ x = "BYE" := fun hc => h (by simp [hc])
    have hy : ¬ y = "BYE" := fun hc => h (by simp [hc])
    have hrest : "BYE" ∉ rest := fun hc => h (by simp [hc])
    have hmod : (rest.length + 1 + 1) % 2 = rest.length % 2 := by omega
    simp only [pairUp, List.filter_cons, isByePair, List.length_cons, hmod]
    simp only [show (x == "BYE" || y == "BYE") = false by
      simp [hx, hy]]
    simpa [isByePair] using pairUp_byes rest hrest

theorem pairUp_last : ∀ l : List String, l.length % 2 = 1 →
    ∃ x, (pairUp l).getLast? = some (x, "BYE")
  | [], h => by simp at h
  | [x], _ => ⟨x, rfl⟩
  | x :: y :: rest, h => by
    have h₂ : rest.length % 2 = 1 := by
      simp only [List.length_cons] at h; omega
    obtain ⟨z, hz⟩ := pairUp_last rest h₂
    refine ⟨z, ?_⟩
    simp only [pairUp]
    cases hp : pairUp rest with
    | nil => rw [hp] at hz; simp at hz
    | cons a t => rw [hp] at hz; rw [List.getLast?_cons_cons]; exact hz

theorem bracketSlots_count (b : List (String × String)) (p : String) :
    (bracketSlots b).count p =
      (b.map (fun pr => pr.1)).count p + (b.map (fun pr => pr.2)).count p := by
  induction b with
  | nil => rfl
  | cons pr rest ih =>
    by_cases h₁ : pr.1 = p <;> by_cases h₂ : pr.2 = p <;>
      simp [bracketSlots, List.count_cons, ih, h₁, h₂] <;> omega

/-! ### Frame lemmas for the state transformers -/

theorem roomUpdate_frame (st : GState) (rc : String) :
    emit_room_update st rc =
      { st with events := st.events ++ roomUpdateEvents st rc } := rfl

theorem leaderboard_frame (st : GState) (rc : String) :
    emit_leaderboard st rc =
      { st with events := st.events ++ leaderboardEvents st rc } := rfl

theorem buildRound_frame (tid : Nat) (rn : String) (tc : Int) :
    ∀ (pairs : List (String × String)) (st : GState) (br : List BracketEntry),
      ((buildRound tid rn tc pairs st br).1.rooms = st.rooms ∧
       (buildRound tid rn tc pairs st br).1.active_matches = st.active_matches ∧
       (buildRound tid rn tc pairs st br).1.users = st.users ∧
       (buildRound tid rn tc pairs st br).1.tournaments = st.tournaments ∧
       (buildRound tid rn tc pairs st br).1.events = st.events) ∧
      ∃ suf, (buildRound tid rn tc pairs st br).1.matchRows = st.matchRows ++ suf
  | [], st, br => ⟨⟨rfl, rfl, rfl, rfl, rfl⟩, [], by simp [buildRound]⟩
  | (w, b) :: rest, st, br => by
    rw [buildRound]
    by_cases hb : b = "BYE"
    · rw [if_pos hb]
      exact buildRound_frame tid rn tc rest st _
    · rw [if_neg hb]
      obtain ⟨hframe, suf, hsuf⟩ := buildRound_frame tid rn tc rest _ _
      exact ⟨hframe, _, by rw [hsuf]; exact List.append_assoc _ _ _⟩

theorem startOneMatch_frame (rc : String) (ps : List (String × Nat)) (tc : Int)
    (e : BracketEntry) (st : GState) :
    (startOneMatch rc ps tc e st).rooms = st.rooms ∧
    (startOneMatch rc ps tc e st).tournaments = st.tournaments ∧
    (startOneMatch rc ps tc e st).users = st.users := by
  unfold startOneMatch
  by_cases hc : e.status = "completed"
  · rw [if_pos hc]; exact ⟨rfl, rfl, rfl⟩
  · rw [if_neg hc]
    cases e.match_id with
    | none => exact ⟨rfl, rfl, rfl⟩
    | some mid => exact ⟨rfl, rfl, rfl⟩

theorem startMatchesLoop_frame (rc : String) (ps : List (String × Nat)) (tc : Int) :
    ∀ (br : List BracketEntry) (st : GState),
      (startMatchesLoop rc ps tc br st).rooms = st.rooms ∧
      (startMatchesLoop rc ps tc br st).tournaments = st.tournaments ∧
      (startMatchesLoop rc ps tc br st).users = st.users
  | [], st => ⟨rfl, rfl, rfl⟩
  | e :: rest, st => by
    rw [startMatchesLoop]
    obtain ⟨h₁, h₂, h₃⟩ := startMatchesLoop_frame rc ps tc rest (startOneMatch rc ps tc e st)
    obtain ⟨g₁, g₂, g₃⟩ := startOneMatch_frame rc ps tc e st
    exact ⟨h₁.trans g₁, h₂.trans g₂, h₃.trans g₃⟩

theorem incTournamentsPlayed_tm :
    ∀ (ps : List (String × Nat)) (us : List User) (n : String),
      (findUser (incTournamentsPlayed ps us) n).map (fun u => u.total_matches) =
        (findUser us n).map (fun u => u.total_matches)
  | [], _, _ => rfl
  | (name, _) :: rest, us, n => by
    rw [incTournamentsPlayed]
    rw [incTournamentsPlayed_tm rest _ n]
    exact findUser_updateUser_tm us name n _ (fun _ => rfl) (fun _ => rfl)

/-- Round advancement never touches the in-memory session registry, only
appends Match rows, and never changes any user's `total_matches`. -/
theorem check_round_complete_frame (shuffle : List String → List String)
    (now : Nat) (st : GState) (rc : String) :
    (check_round_complete shuffle now st rc).active_matches = st.active_matches ∧
    (∃ suf, (check_round_complete shuffle now st rc).matchRows = st.matchRows ++ suf) ∧
    (∀ n, (findUser (check_round_complete shuffle now st rc).users n).map
            (fun u => u.total_matches) =
          (findUser st.users n).map (fun u => u.total_matches)) := by
  unfold check_round_complete
  split
  · exact ⟨rfl, ⟨[], by simp⟩, fun n => rfl⟩
  · split
    · exact ⟨rfl, ⟨[], by simp⟩, fun n => rfl⟩
    · split
      · split
        · split
          · refine ⟨rfl, ⟨[], by simp [emit_leaderboard]⟩, fun n => ?_⟩
            simp only [emit_leaderboard]
            rw [incTournamentsPlayed_tm]
            exact findUser_updateUser_tm _ _ _ _ (fun _ => rfl) (fun _ => rfl)
          · obtain ⟨⟨hr, ha, hu, ht, he⟩, suf, hm⟩ :=
              buildRound_frame _ _ _ _ st []
            refine ⟨?_, ⟨suf, ?_⟩, fun n => ?_⟩
            · simpa [emit_leaderboard] using ha
            · simpa [emit_leaderboard] using hm
            · simp only [emit_leaderboard]
              rw [hu]
        · exact ⟨rfl, ⟨[], by simp⟩, fun n => rfl⟩
      · exact ⟨rfl, ⟨[], by simp⟩, fun n => rfl⟩

theorem bumpTotalMatches_find (users : List User) (m : MatchRec) (wu bu : User)
    (hwu : findUser users m.white_player = some wu)
    (hbu : findUser users m.black_player = some bu)
    (hne : m.white_player ≠ m.black_player) :
    findUser (bumpTotalMatches users m) m.white_player =
      some { wu with total_matches := wu.total_matches + 1 } ∧
    findUser (bumpTotalMatches users m) m.black_player =
      some { bu with total_matches := bu.total_matches + 1 } := by
  have hwname := findUser_some_username _ _ _ hwu
  have hbname := findUser_some_username _ _ _ hbu
  have hwb : ¬ wu.username = m.black_player := by rw [hwname]; exact hne
  have hbw : ¬ bu.username = m.white_player := by rw [hbname]; exact Ne.symm hne
  unfold bumpTotalMatches
  constructor
  · rw [findUser_updateUser _ _ _ _ (by intro u; rfl),
      findUser_updateUser _ _ _ _ (by intro u; rfl), hwu]
    simp [hwname, hwb, hne, Ne.symm hne]
  · rw [findUser_updateUser _ _ _ _ (by intro u; rfl),
      findUser_updateUser _ _ _ _ (by intro u; rfl), hbu]
    simp [hbname, hbw, hne, Ne.symm hne]

/-- The statistics block increments each player's `total_matches` by exactly
one, whatever the result and winner values are. -/
theorem applyMatchStats_tm (eloFn : Int → Int → Int × Int) (users : List User)
    (m : MatchRec) (w r : Option String) (wu bu : User)
    (hwu : findUser users m.white_player = some wu)
    (hbu : findUser users m.black_player = some bu)
    (hne : m.white_player ≠ m.black_player) :
    (findUser (applyMatchStats eloFn users m w r) m.white_player).map
        (fun u => u.total_matches) = some (wu.total_matches + 1) ∧
    (findUser (applyMatchStats eloFn users m w r) m.black_player).map
        (fun u => u.total_matches) = some (bu.total_matches + 1) := by
  obtain ⟨hw₂, hb₂⟩ := bumpTotalMatches_find users m wu bu hwu hbu hne
  unfold applyMatchStats
  rw [hwu, hbu]
  dsimp only
  by_cases hr : r = some "draw"
  · rw [if_pos hr]
    constructor
    · rw [findUser_updateUser_tm _ _ _ _ (by intro u; rfl) (by intro u; rfl),
        findUser_updateUser_tm _ _ _ _ (by intro u; rfl) (by intro u; rfl), hw₂]
      rfl
    · rw [findUser_updateUser_tm _ _ _ _ (by intro u; rfl) (by intro u; rfl),
        findUser_updateUser_tm _ _ _ _ (by intro u; rfl) (by intro u; rfl), hb₂]
      rfl
  · rw [if_neg hr]
    by_cases hww : w = some m.white_player
    · rw [if_pos hww]
      constructor
      · rw [findUser_updateUser_tm _ _ _ _ (by intro u; rfl) (by intro u; rfl),
          findUser_updateUser_tm _ _ _ _ (by intro u; rfl) (by intro u; rfl), hw₂]
        rfl
      · rw [findUser_updateUser_tm _ _ _ _ (by intro u; rfl) (by intro u; rfl),
          findUser_updateUser_tm _ _ _ _ (by intro u; rfl) (by intro u; rfl), hb₂]
        rfl
    · rw [if_neg hww]
      by_cases hwb : w = some m.black_player
      · rw [if_pos hwb]
        constructor
        · rw [findUser_updateUser_tm _ _ _ _ (by intro u; rfl) (by intro u; rfl),
            findUser_updateUser_tm _ _ _ _ (by intro u; rfl) (by intro u; rfl), hw₂]
          rfl
        · rw [findUser_updateUser_tm _ _ _ _ (by intro u; rfl) (by intro u; rfl),
            findUser_updateUser_tm _ _ _ _ (by intro u; rfl) (by intro u; rfl), hb₂]
          rfl
      · rw [if_neg hwb]
        exact ⟨by rw [hw₂]; rfl, by rw [hb₂]; rfl⟩

/-- What one termination run does, given an active session and an existing
Match row: the session is removed from the registry, the Match row receives
its terminal write, and the user table is the statistics update (round
advancement never changes `total_matches`). -/
theorem handle_match_end_main (eloFn : Int → Int → Int × Int)
    (shuffle : List String → List String) (now : Nat) (st : GState)
    (mid : Nat) (w r : Option String) (ms : MatchState) (m : MatchRec)
    (hms : alookup st.active_matches mid = some ms)
    (hact : ms.status = "active")
    (hm : findMatch st.matchRows mid = some m) :
    (handle_match_end eloFn shuffle now st mid w r).active_matches =
      aerase (aupdate st.active_matches mid { ms with status := "completed" }) mid ∧
    findMatch (handle_match_end eloFn shuffle now st mid w r).matchRows mid =
      some { m with status := "completed", winner := w, result := r,
                    completed_at := some now } ∧
    (∀ n, (findUser (handle_match_end eloFn shuffle now st mid w r).users n).map
            (fun u => u.total_matches) =
          (findUser (applyMatchStats eloFn st.users m w r) n).map
            (fun u => u.total_matches)) := by
  have hid : m.id = mid := findMatch_some_id _ _ _ hm
  have hupd : findMatch (updateMatch st.matchRows mid (fun m₂ =>
      { m₂ with status := "completed", winner := w, result := r,
                completed_at := some now })) mid =
      some { m with status := "completed", winner := w, result := r,
                    completed_at := some now } := by
    rw [findMatch_updateMatch _ _ _ _ (by intro m₂; rfl), hm]
    simp [hid]
  unfold handle_match_end
  rw [hms]
  dsimp only
  rw [if_pos hact]
  rw [hm]
  dsimp only
  split
  · exact ⟨rfl, hupd, fun n => rfl⟩
  · split
    · exact ⟨rfl, hupd, fun n => rfl⟩
    · obtain ⟨hca, ⟨suf, hcm⟩, hcu⟩ := check_round_complete_frame shuffle now _ _
      refine ⟨?_, ?_, fun n => ?_⟩
      · rw [hca]; rfl
      · rw [hcm]
        exact findMatch_append_left _ _ _ _ hupd
      · rw [hcu n]; rfl

/-- Every termination or in-match handler is a strict no-op once the
session is gone from the registry. -/
theorem handle_match_end_noop (eloFn : Int → Int → Int × Int)
    (shuffle : List String → List String) (now : Nat) (st : GState)
    (mid : Nat) (w r : Option String)
    (h : alookup st.active_matches mid = none) :
    handle_match_end eloFn shuffle now st mid w r = st := by
  unfold handle_match_end; rw [h]

theorem on_update_timer_noop (eloFn : Int → Int → Int × Int)
    (shuffle : List String → List String) (now : Nat) (st : GState)
    (u : Option String) (mid : Nat) (wt bt : Int)
    (h : alookup st.active_matches mid = none) :
    on_update_timer eloFn shuffle now st u mid wt bt = st := by
  unfold on_update_timer; rw [h]

theorem on_game_over_noop (eloFn : Int → Int → Int × Int)
    (shuffle : List String → List String) (now : Nat) (st : GState)
    (u : Option String) (mid : Nat) (res win : Option String)
    (h : alookup st.active_matches mid = none) :
    on_game_over eloFn shuffle now st u mid res win = st := by
  unfold on_game_over; rw [h]

theorem on_resign_noop (eloFn : Int → Int → Int × Int)
    (shuffle : List String → List String) (now : Nat) (st : GState)
    (u : Option String) (mid : Nat)
    (h : alookup st.active_matches mid = none) :
    on_resign eloFn shuffle now st u mid = st := by
  unfold on_resign; rw [h]

/-- The same handlers are strict no-ops on a session that is no longer
active (the in-place `state['status'] = 'completed'` left by a termination
whose Match row was missing). -/
theorem handle_match_end_noop₂ (eloFn : Int → Int → Int × Int)
    (shuffle : List String → List String) (now : Nat) (st : GState)
    (mid : Nat) (w r : Option String) (ms : MatchState)
    (h : alookup st.active_matches mid = some ms) (hs : ¬ ms.status = "active") :
    handle_match_end eloFn shuffle now st mid w r = st := by
  unfold handle_match_end; rw [h]; dsimp only; rw [if_neg hs]

theorem on_update_timer_noop₂ (eloFn : Int → Int → Int × Int)
    (shuffle : List String → List String) (now : Nat) (st : GState)
    (u : Option String) (mid : Nat) (wt bt : Int) (ms : MatchState)
    (h : alookup st.active_matches mid = some ms) (hs : ¬ ms.status = "active") :
    on_update_timer eloFn shuffle now st u mid wt bt = st := by
  unfold on_update_timer; rw [h]; dsimp only; rw [if_neg hs]

theorem on_game_over_noop₂ (eloFn : Int → Int → Int × Int)
    (shuffle : List String → List String) (now : Nat) (st : GState)
    (u : Option String) (mid : Nat) (res win : Option String) (ms : MatchState)
    (h : alookup st.active_matches mid = some ms) (hs : ¬ ms.status = "active") :
    on_game_over eloFn shuffle now st u mid res win = st := by
  unfold on_game_over; rw [h]; dsimp only; rw [if_neg hs]

theorem on_resign_noop₂ (eloFn : Int → Int → Int × Int)
    (shuffle : List String → List String) (now : Nat) (st : GState)
    (u : Option String) (mid : Nat) (ms : MatchState)
    (h : alookup st.active_matches mid = some ms) (hs : ¬ ms.status = "active") :
    on_resign eloFn shuffle now st u mid = st := by
  unfold on_resign; rw [h]; dsimp only; rw [if_neg hs]

theorem on_make_move_inactive (st : GState) (u : Option String) (mid : Nat)
    (mv : Option (String × String)) (fen : String) (ms : MatchState)
    (h : alookup st.active_matches mid = some ms) (hs : ¬ ms.status = "active") :
    on_make_move st u mid mv fen =
      { st with events := st.events ++ [Event.errorMsg "Match not active"] } := by
  unfold on_make_move; rw [h]; dsimp only; rw [if_neg hs]

/-! ## Claim theorems -/

/-- C1: the claim says the winner set used by the Round Advancement
Coordinator includes every bye participant of the round.  The code collects
winners from the round's Match rows only, and byes have no Match row, so a
bye participant is dropped: in the concrete 3-player state `c1State` (round
bracket: alice beat bob in Match 1, carol holds a completed bye entry with
no row), advancing the round declares the tournament completed with winner
alice instead of pairing alice against carol in a Final — carol never
plays. -/
theorem c1_bye_participant_dropped :
    ((alookup c1State.rooms "R1").map
        (fun room => room.bracket.map (fun e => (e.white, e.black, e.status))) =
      some [("alice", "bob", "completed"), ("carol", "BYE", "completed")]) ∧
    (findT (check_round_complete idShuffle 9 c1State "R1").tournaments 1).map
        (fun t => (t.status, t.winner_username, t.rounds.length)) =
      some ("completed", some "alice", 1) := by decide

/-- C3 (counterexample): `on_game_over` stores the client-supplied winner
without validating it, so a completed Match row can hold a winner that is
neither of its two players — from `c3State` (an active friendly between "A"
and "B"), a game_over reporting winner "mallory" completes Match 1 with
winner "mallory". -/
theorem c3_winner_unvalidated :
    ((findMatch c3State.matchRows 1).map (fun m => (m.white_player, m.black_player)) =
      some ("A", "B")) ∧
    (findMatch (on_game_over eloK16 idShuffle 7 c3State (some "A") 1
        (some "checkmate") (some "mallory")).matchRows 1).map
        (fun m => (m.status, m.winner)) = some ("completed", some "mallory") ∧
    ("mallory" ≠ "A" ∧ "mallory" ≠ "B") := by decide

/-- C4 (counterexample): `on_start_tournament` has no status guard.  In
`c4State` the room and tournament are already active (current round "Final",
one active Match row, a 2-entry rounds log), yet a second start by the admin
is accepted: it creates a new Match row (2 rows afterwards) and resets the
tournament's rounds log to a single entry, so state does change. -/
theorem c4_restart_accepted :
    ((alookup c4State.rooms "R1").map (fun r => r.status) = some "active") ∧
    ((findT c4State.tournaments 1).map (fun t => t.rounds.length) = some 2) ∧
    (on_start_tournament idShuffle c4State (some "alice") "R1" 300).matchRows.length = 2 ∧
    c4State.matchRows.length = 1 ∧
    ((findT (on_start_tournament idShuffle c4State (some "alice") "R1" 300).tournaments 1).map
        (fun t => t.rounds.length) = some 1) := by decide

/-- C5 (counterexample): the rejoin test is membership of the in-memory
`players` dict, not of `Tournament.participants`.  In `c5State` the
tournament is active and "alice" is in `participants` but (having
disconnected) not in the room's players, so her join is rejected with the
in-progress error and nothing changes. -/
theorem c5_participant_rejoin_rejected :
    ((findT c5State.tournaments 1).map (fun t => (t.status, t.participants)) =
      some ("active", ["alice", "bob"])) ∧
    ((alookup c5State.rooms "R1").map
        (fun r => (alookup r.players "alice").isSome) = some false) ∧
    on_join_room c5State (some "alice") 9 "R1" =
      { c5State with
          events := c5State.events ++ [Event.errorMsg "Tournament already in progress"] } := by
  decide

/-- C6 (counterexample): admin removal does not apply the cleanup of
`leave`.  In the waiting room `c6State`, removing "bob" leaves
`Tournament.participants` untouched and broadcasts only the kicked notice
and a roster update — no `player_left` — while a disconnect of "bob" from
the same state removes him from the participants and broadcasts
`player_left`. -/
theorem c6_admin_remove_skips_cleanup :
    ((findT (on_remove_player c6State (some "alice") "R1" "bob").tournaments 1).map
        (fun t => t.participants) = some ["alice", "bob"]) ∧
    (on_remove_player c6State (some "alice") "R1" "bob").events =
      [Event.kicked 2, Event.roomEvent "R1" "room_update"] ∧
    ((findT (on_disconnect c6State (some "bob")).tournaments 1).map
        (fun t => t.participants) = some ["alice"]) ∧
    (on_disconnect c6State (some "bob")).events =
      [Event.roomEvent "R1" "room_update", Event.playerLeft "R1" "bob"] := by decide

/-- C8: the Rating Engine is the standard K=32 Elo update — for all integer
ratings the code computes the pair
(round(winner + 32·(1−E)), round(loser − 32·(1−E))) with
E = 1 / (1 + 10^((loser − winner)/400)), and a 1200-vs-1200 decisive game
yields 1216 and 1184.  (Python floats are modelled as reals, Python's
`round` as `pyRound`.) -/
theorem c8_elo_formula :
    (∀ wr lr : ℤ,
      calculate_elo (wr : ℝ) (lr : ℝ) =
        (pyRound ((wr : ℝ) + 32 * (1 - specExpectedWinner (wr : ℝ) (lr : ℝ))),
         pyRound ((lr : ℝ) - 32 * (1 - specExpectedWinner (wr : ℝ) (lr : ℝ))))) ∧
    calculate_elo 1200 1200 = (1216, 1184) := by
  constructor
  · intro wr lr
    unfold calculate_elo specExpectedWinner
    refine Prod.ext rfl ?_
    dsimp only
    congr 1
    ring
  · have h0 : ((1200 : ℝ) - 1200) / 400 = 0 := by norm_num
    unfold calculate_elo
    rw [h0, Real.rpow_zero]
    norm_num
    constructor
    · unfold pyRound
      norm_num
    · unfold pyRound
      norm_num

/-- C9: for every non-empty participant list, the Bracket Generator (with
any permutation as the shuffle) outputs ⌈n/2⌉ pairs, every participant
occupies exactly one slot, the number of pairs containing the bye sentinel
is one when n is odd and zero when n is even, and an odd list puts the bye
in the second slot of the final pair. -/
theorem c9_bracket_properties (shuffle : List String → List String)
    (players : List String) (hperm : (shuffle players).Perm players)
    (hne : players ≠ []) (hnd : players.Nodup) (hbye : "BYE" ∉ players) :
    (generate_bracket shuffle players).length = (players.length + 1) / 2 ∧
    (∀ p ∈ players, (bracketSlots (generate_bracket shuffle players)).count p = 1) ∧
    ((generate_bracket shuffle players).filter isByePair).length =
      (if players.length % 2 = 1 then 1 else 0) ∧
    (players.length % 2 = 1 →
      ∃ x, (generate_bracket shuffle players).getLast? = some (x, "BYE")) := by
  have hlen : (shuffle players).length = players.length := hperm.length_eq
  have hbye₂ : "BYE" ∉ shuffle players := fun hc => hbye (hperm.mem_iff.mp hc)
  refine ⟨?_, ?_, ?_, ?_⟩
  · rw [generate_bracket, pairUp_length, hlen]
  · intro p hp
    have h₁ : (shuffle players).count p = 1 :=
      List.count_eq_one_of_mem (hperm.nodup_iff.mpr hnd) (hperm.mem_iff.mpr hp)
    have hpbye : ¬ p = "BYE" := fun hc => hbye (hc ▸ hp)
    rw [generate_bracket, pairUp_slots, List.count_append]
    by_cases ho : (shuffle players).length % 2 = 1 <;> simp [ho, h₁, hpbye]
  · rw [generate_bracket, pairUp_byes _ hbye₂, hlen]
  · intro hodd
    rw [generate_bracket]
    exact pairUp_last _ (by rw [hlen]; exact hodd)

/-- Witness for C9 at the concrete 3-player list. -/
theorem c9_bracket_properties_witness :
    ((idShuffle ["a", "b", "c"]).Perm ["a", "b", "c"] ∧
      (["a", "b", "c"] : List String) ≠ [] ∧
      (["a", "b", "c"] : List String).Nodup ∧ "BYE" ∉ (["a", "b", "c"] : List String)) ∧
    ((generate_bracket idShuffle ["a", "b", "c"]).length =
        ((["a", "b", "c"] : List String).length + 1) / 2 ∧
      (∀ p ∈ (["a", "b", "c"] : List String),
        (bracketSlots (generate_bracket idShuffle ["a", "b", "c"])).count p = 1) ∧
      ((generate_bracket idShuffle ["a", "b", "c"]).filter isByePair).length =
        (if (["a", "b", "c"] : List String).length % 2 = 1 then 1 else 0) ∧
      ((["a", "b", "c"] : List String).length % 2 = 1 →
        ∃ x, (generate_bracket idShuffle ["a", "b", "c"]).getLast? = some (x, "BYE"))) :=
  ⟨⟨List.Perm.refl _, by decide, by decide, by decide⟩,
    c9_bracket_properties idShuffle ["a", "b", "c"] (List.Perm.refl _)
      (by decide) (by decide) (by decide)⟩

/-- C2: termination is idempotent.  For an active session with an existing
Match row and both player rows present, one termination run increments each
player's `total_matches` by exactly 1, and a second termination signal —
whether issued directly, by a clock report, by a declared result, or by a
resignation — finds the session deleted and changes nothing at all. -/
theorem c2_termination_idempotent (eloFn : Int → Int → Int × Int)
    (shuffle : List String → List String) (now now₂ : Nat) (st : GState)
    (mid : Nat) (w r w₂ r₂ : Option String) (ms : MatchState) (m : MatchRec)
    (wu bu : User)
    (hms : alookup st.active_matches mid = some ms)
    (hact : ms.status = "active")
    (hm : findMatch st.matchRows mid = some m)
    (hne : m.white_player ≠ m.black_player)
    (hwu : findUser st.users m.white_player = some wu)
    (hbu : findUser st.users m.black_player = some bu) :
    handle_match_end eloFn shuffle now₂
        (handle_match_end eloFn shuffle now st mid w r) mid w₂ r₂ =
      handle_match_end eloFn shuffle now st mid w r ∧
    (∀ u wt bt,
      on_update_timer eloFn shuffle now₂
          (handle_match_end eloFn shuffle now st mid w r) u mid wt bt =
        handle_match_end eloFn shuffle now st mid w r) ∧
    (∀ u res win,
      on_game_over eloFn shuffle now₂
          (handle_match_end eloFn shuffle now st mid w r) u mid res win =
        handle_match_end eloFn shuffle now st mid w r) ∧
    (∀ u,
      on_resign eloFn shuffle now₂
          (handle_match_end eloFn shuffle now st mid w r) u mid =
        handle_match_end eloFn shuffle now st mid w r) ∧
    (findUser (handle_match_end eloFn shuffle now st mid w r).users
        m.white_player).map (fun u => u.total_matches) =
      some (wu.total_matches + 1) ∧
    (findUser (handle_match_end eloFn shuffle now st mid w r).users
        m.black_player).map (fun u => u.total_matches) =
      some (bu.total_matches + 1) := by
  obtain ⟨ham, hrec, htm⟩ :=
    handle_match_end_main eloFn shuffle now st mid w r ms m hms hact hm
  obtain ⟨htw, htb⟩ := applyMatchStats_tm eloFn st.users m w r wu bu hwu hbu hne
  have hgone :
      alookup (handle_match_end eloFn shuffle now st mid w r).active_matches mid =
        none := by
    rw [ham]; exact alookup_aerase_self _ _
  exact ⟨handle_match_end_noop _ _ _ _ _ _ _ hgone,
    fun u wt bt => on_update_timer_noop _ _ _ _ _ _ _ _ hgone,
    fun u res win => on_game_over_noop _ _ _ _ _ _ _ _ hgone,
    fun u => on_resign_noop _ _ _ _ _ _ hgone,
    (htm m.white_player).trans htw,
    (htm m.black_player).trans htb⟩

/-- Witness for C2: the friendly match of `c3State` terminated by checkmate
of "A". -/
theorem c2_termination_idempotent_witness :
    (alookup c3State.active_matches 1 =
        some { room_code := "R1", white := "A", black := "B", white_time := 300,
               black_time := 300, turn := "w", fen := startFen,
               status := "active" } ∧
      findMatch c3State.matchRows 1 =
        some { id := 1, tournament_id := 1, round_name := "Friendly",
               white_player := "A", black_player := "B", winner := none,
               result := none, time_control := 300, status := "active",
               completed_at := none } ∧
      findUser c3State.users "A" = some (mkUser "A") ∧
      findUser c3State.users "B" = some (mkUser "B")) ∧
    (handle_match_end eloK16 idShuffle 8
        (handle_match_end eloK16 idShuffle 7 c3State 1 (some "A") (some "checkmate"))
        1 (some "B") (some "resignation") =
      handle_match_end eloK16 idShuffle 7 c3State 1 (some "A") (some "checkmate") ∧
    (∀ u wt bt,
      on_update_timer eloK16 idShuffle 8
          (handle_match_end eloK16 idShuffle 7 c3State 1 (some "A") (some "checkmate"))
          u 1 wt bt =
        handle_match_end eloK16 idShuffle 7 c3State 1 (some "A") (some "checkmate")) ∧
    (∀ u res win,
      on_game_over eloK16 idShuffle 8
          (handle_match_end eloK16 idShuffle 7 c3State 1 (some "A") (some "checkmate"))
          u 1 res win =
        handle_match_end eloK16 idShuffle 7 c3State 1 (some "A") (some "checkmate")) ∧
    (∀ u,
      on_resign eloK16 idShuffle 8
          (handle_match_end eloK16 idShuffle 7 c3State 1 (some "A") (some "checkmate"))
          u 1 =
        handle_match_end eloK16 idShuffle 7 c3State 1 (some "A") (some "checkmate")) ∧
    (findUser (handle_match_end eloK16 idShuffle 7 c3State 1 (some "A")
        (some "checkmate")).users "A").map (fun u => u.total_matches) =
      some ((mkUser "A").total_matches + 1) ∧
    (findUser (handle_match_end eloK16 idShuffle 7 c3State 1 (some "A")
        (some "checkmate")).users "B").map (fun u => u.total_matches) =
      some ((mkUser "B").total_matches + 1)) :=
  ⟨⟨by decide, by decide, by decide, by decide⟩,
    c2_termination_idempotent eloK16 idShuffle 7 8 c3State 1 (some "A")
      (some "checkmate") (some "B") (some "resignation")
      { room_code := "R1", white := "A", black := "B", white_time := 300,
        black_time := 300, turn := "w", fen := startFen, status := "active" }
      { id := 1, tournament_id := 1, round_name := "Friendly",
        white_player := "A", black_player := "B", winner := none,
        result := none, time_control := 300, status := "active",
        completed_at := none }
      (mkUser "A") (mkUser "B")
      (by decide) (by decide) (by decide) (by decide) (by decide) (by decide)⟩

/-- C7: a clock report by the white-side player of an active session
terminates on expiry — a non-positive white clock completes the Match row
with result timeout and the black player as winner (checked first, so black
wins a double flag), otherwise a non-positive black clock completes it with
the white player as winner. -/
theorem c7_timer_expiry (eloFn : Int → Int → Int × Int)
    (shuffle : List String → List String) (now : Nat) (st : GState)
    (username : Option String) (mid : Nat) (wt bt : Int)
    (ms : MatchState) (m : MatchRec)
    (hms : alookup st.active_matches mid = some ms)
    (hact : ms.status = "active")
    (huser : username = some ms.white)
    (hm : findMatch st.matchRows mid = some m) :
    (wt ≤ 0 →
      findMatch (on_update_timer eloFn shuffle now st username mid wt bt).matchRows
          mid =
        some { m with status := "completed", winner := some ms.black,
                      result := some "timeout", completed_at := some now }) ∧
    (¬ wt ≤ 0 → bt ≤ 0 →
      findMatch (on_update_timer eloFn shuffle now st username mid wt bt).matchRows
          mid =
        some { m with status := "completed", winner := some ms.white,
                      result := some "timeout", completed_at := some now }) := by
  unfold on_update_timer
  rw [hms]
  dsimp only
  rw [if_pos hact, if_pos huser]
  constructor
  · intro hwt
    rw [if_pos hwt]
    exact (handle_match_end_main eloFn shuffle now
      { st with
          active_matches := aupdate st.active_matches mid
            { ms with white_time := wt, black_time := bt } }
      mid (some ms.black) (some "timeout")
      { ms with white_time := wt, black_time := bt } m
      (alookup_aupdate_self _ _ _) hact hm).2.1
  · intro hwt hbt
    rw [if_neg hwt, if_pos hbt]
    exact (handle_match_end_main eloFn shuffle now
      { st with
          active_matches := aupdate st.active_matches mid
            { ms with white_time := wt, black_time := bt } }
      mid (some ms.white) (some "timeout")
      { ms with white_time := wt, black_time := bt } m
      (alookup_aupdate_self _ _ _) hact hm).2.1

/-- Witness for C7: in `c3State`, white reports white_time=0, black_time=45
and the match completes with winner "B" (black) by timeout. -/
theorem c7_timer_expiry_witness :
    (alookup c3State.active_matches 1 =
        some { room_code := "R1", white := "A", black := "B", white_time := 300,
               black_time := 300, turn := "w", fen := startFen,
               status := "active" } ∧
      findMatch c3State.matchRows 1 =
        some { id := 1, tournament_id := 1, round_name := "Friendly",
               white_player := "A", black_player := "B", winner := none,
               result := none, time_control := 300, status := "active",
               completed_at := none }) ∧
    (((0 : Int) ≤ 0 →
      findMatch (on_update_timer eloK16 idShuffle 3 c3State (some "A") 1 0 45).matchRows 1 =
        some { id := 1, tournament_id := 1, round_name := "Friendly",
               white_player := "A", black_player := "B", winner := some "B",
               result := some "timeout", time_control := 300,
               status := "completed", completed_at := some 3 }) ∧
    (¬ (0 : Int) ≤ 0 → (45 : Int) ≤ 0 →
      findMatch (on_update_timer eloK16 idShuffle 3 c3State (some "A") 1 0 45).matchRows 1 =
        some { id := 1, tournament_id := 1, round_name := "Friendly",
               white_player := "A", black_player := "B", winner := some "A",
               result := some "timeout", time_control := 300,
               status := "completed", completed_at := some 3 })) :=
  ⟨⟨by decide, by decide⟩,
    c7_timer_expiry eloK16 idShuffle 3 c3State (some "A") 1 0 45
      { room_code := "R1", white := "A", black := "B", white_time := 300,
        black_time := 300, turn := "w", fen := startFen, status := "active" }
      { id := 1, tournament_id := 1, round_name := "Friendly",
        white_player := "A", black_player := "B", winner := none,
        result := none, time_control := 300, status := "active",
        completed_at := none }
      (by decide) (by decide) (by decide) (by decide)⟩

/-- C10: terminating an active session whose Match row is missing marks the
session completed in place and returns — users, rows, tournaments, rooms and
the event log are all untouched, the session stays registered, and every
subsequent move, clock report, game-over, resignation, or repeated
termination for that match leaves the state unchanged (a move attempt only
re-emits the inactive-match error). -/
theorem c10_missing_row_stalls_session (eloFn : Int → Int → Int × Int)
    (shuffle : List String → List String) (now : Nat) (st : GState)
    (mid : Nat) (w r : Option String) (ms : MatchState)
    (hms : alookup st.active_matches mid = some ms)
    (hact : ms.status = "active")
    (hm : findMatch st.matchRows mid = none) :
    handle_match_end eloFn shuffle now st mid w r =
      { st with active_matches :=
          aupdate st.active_matches mid { ms with status := "completed" } } ∧
    alookup (handle_match_end eloFn shuffle now st mid w r).active_matches mid =
      some { ms with status := "completed" } ∧
    (∀ now₂ w₂ r₂,
      handle_match_end eloFn shuffle now₂
          (handle_match_end eloFn shuffle now st mid w r) mid w₂ r₂ =
        handle_match_end eloFn shuffle now st mid w r) ∧
    (∀ u wt bt,
      on_update_timer eloFn shuffle now
          (handle_match_end eloFn shuffle now st mid w r) u mid wt bt =
        handle_match_end eloFn shuffle now st mid w r) ∧
    (∀ u res win,
      on_game_over eloFn shuffle now
          (handle_match_end eloFn shuffle now st mid w r) u mid res win =
        handle_match_end eloFn shuffle now st mid w r) ∧
    (∀ u,
      on_resign eloFn shuffle now
          (handle_match_end eloFn shuffle now st mid w r) u mid =
        handle_match_end eloFn shuffle now st mid w r) ∧
    (∀ u mv fen,
      on_make_move (handle_match_end eloFn shuffle now st mid w r) u mid mv fen =
        { handle_match_end eloFn shuffle now st mid w r with
            events := (handle_match_end eloFn shuffle now st mid w r).events ++
              [Event.errorMsg "Match not active"] }) := by
  have hbody : handle_match_end eloFn shuffle now st mid w r =
      { st with active_matches :=
          aupdate st.active_matches mid { ms with status := "completed" } } := by
    unfold handle_match_end
    rw [hms]
    dsimp only
    rw [if_pos hact]
    rw [hm]
  have hlook :
      alookup (handle_match_end eloFn shuffle now st mid w r).active_matches mid =
        some { ms with status := "completed" } := by
    rw [hbody]; exact alookup_aupdate_self _ _ _
  have hstat : ¬ ("completed" : String) = "active" := by decide
  exact ⟨hbody, hlook,
    fun now₂ w₂ r₂ => handle_match_end_noop₂ _ _ _ _ _ _ _ _ hlook hstat,
    fun u wt bt => on_update_timer_noop₂ _ _ _ _ _ _ _ _ _ hlook hstat,
    fun u res win => on_game_over_noop₂ _ _ _ _ _ _ _ _ _ hlook hstat,
    fun u => on_resign_noop₂ _ _ _ _ _ _ _ hlook hstat,
    fun u mv fen => on_make_move_inactive _ _ _ _ _ _ hlook hstat⟩

/-- Witness for C10 at `c10State` (active session 7, no Match row). -/
theorem c10_missing_row_stalls_session_witness :
    (alookup c10State.active_matches 7 =
        some { room_code := "GONE", white := "A", black := "B", white_time := 60,
               black_time := 60, turn := "w", fen := startFen,
               status := "active" } ∧
      findMatch c10State.matchRows 7 = none) ∧
    (handle_match_end eloK16 idShuffle 3 c10State 7 (some "A") (some "resignation") =
      { c10State with
          active_matches :=
            aupdate c10State.active_matches 7
              { room_code := "GONE", white := "A", black := "B", white_time := 60,
                black_time := 60, turn := "w", fen := startFen,
                status := "completed" } } ∧
    alookup (handle_match_end eloK16 idShuffle 3 c10State 7 (some "A")
        (some "resignation")).active_matches 7 =
      some { room_code := "GONE", white := "A", black := "B", white_time := 60,
             black_time := 60, turn := "w", fen := startFen,
             status := "completed" } ∧
    (∀ now₂ w₂ r₂,
      handle_match_end eloK16 idShuffle now₂
          (handle_match_end eloK16 idShuffle 3 c10State 7 (some "A")
            (some "resignation")) 7 w₂ r₂ =
        handle_match_end eloK16 idShuffle 3 c10State 7 (some "A")
          (some "resignation")) ∧
    (∀ u wt bt,
      on_update_timer eloK16 idShuffle 3
          (handle_match_end eloK16 idShuffle 3 c10State 7 (some "A")
            (some "resignation")) u 7 wt bt =
        handle_match_end eloK16 idShuffle 3 c10State 7 (some "A")
          (some "resignation")) ∧
    (∀ u res win,
      on_game_over eloK16 idShuffle 3
          (handle_match_end eloK16 idShuffle 3 c10State 7 (some "A")
            (some "resignation")) u 7 res win =
        handle_match_end eloK16 idShuffle 3 c10State 7 (some "A")
          (some "resignation")) ∧
    (∀ u,
      on_resign eloK16 idShuffle 3
          (handle_match_end eloK16 idShuffle 3 c10State 7 (some "A")
            (some "resignation")) u 7 =
        handle_match_end eloK16 idShuffle 3 c10State 7 (some "A")
          (some "resignation")) ∧
    (∀ u mv fen,
      on_make_move (handle_match_end eloK16 idShuffle 3 c10State 7 (some "A")
          (some "resignation")) u 7 mv fen =
        { handle_match_end eloK16 idShuffle 3 c10State 7 (some "A")
            (some "resignation") with
            events := (handle_match_end eloK16 idShuffle 3 c10State 7 (some "A")
              (some "resignation")).events ++
              [Event.errorMsg "Match not active"] })) :=
  ⟨⟨by decide, by decide⟩,
    c10_missing_row_stalls_session eloK16 idShuffle 3 c10State 7 (some "A")
      (some "resignation")
      { room_code := "GONE", white := "A", black := "B", white_time := 60,
        black_time := 60, turn := "w", fen := startFen, status := "active" }
      (by decide) (by decide) (by decide)⟩

/-- C3 (amended): a completed Match produced by resignation or clock-expiry
termination (from a session agreeing with the row on the two players) has a
winner equal to exactly one of its two players — the server forces the
winner there; only `game_over` stores the client-reported winner
unvalidated. -/
theorem c3_amended_forced_winners (eloFn : Int → Int → Int × Int)
    (shuffle : List String → List String) (now : Nat) (st : GState)
    (mid : Nat) (ms : MatchState) (m : MatchRec) (u : String)
    (hms : alookup st.active_matches mid = some ms)
    (hact : ms.status = "active")
    (hm : findMatch st.matchRows mid = some m)
    (hwp : m.white_player = ms.white) (hbp : m.black_player = ms.black)
    (hne : ms.white ≠ ms.black) :
    ((u = ms.white ∨ u = ms.black) →
      ∃ m₂, findMatch (on_resign eloFn shuffle now st (some u) mid).matchRows mid
          = some m₂ ∧ m₂.status = "completed" ∧
        ((m₂.winner = some m₂.white_player ∧ m₂.winner ≠ some m₂.black_player) ∨
         (m₂.winner = some m₂.black_player ∧ m₂.winner ≠ some m₂.white_player))) ∧
    (∀ wt bt : Int, wt ≤ 0 ∨ bt ≤ 0 →
      ∃ m₂, findMatch (on_update_timer eloFn shuffle now st (some ms.white) mid
          wt bt).matchRows mid = some m₂ ∧ m₂.status = "completed" ∧
        ((m₂.winner = some m₂.white_player ∧ m₂.winner ≠ some m₂.black_player) ∨
         (m₂.winner = some m₂.black_player ∧ m₂.winner ≠ some m₂.white_player))) := by
  constructor
  · intro hpart
    unfold on_resign
    rw [hms]
    dsimp only
    rw [if_pos hact]
    rw [if_pos hpart]
    by_cases hu : u = ms.white
    · rw [if_pos hu]
      refine ⟨_, (handle_match_end_main eloFn shuffle now st mid (some ms.black)
        (some "resignation") ms m hms hact hm).2.1, rfl, Or.inr ⟨?_, ?_⟩⟩
      · dsimp only; rw [hbp]
      · dsimp only
        rw [hwp]
        intro hc
        exact (Ne.symm hne) (Option.some.inj hc)
    · rw [if_neg hu]
      refine ⟨_, (handle_match_end_main eloFn shuffle now st mid (some ms.white)
        (some "resignation") ms m hms hact hm).2.1, rfl, Or.inl ⟨?_, ?_⟩⟩
      · dsimp only; rw [hwp]
      · dsimp only
        rw [hbp]
        intro hc
        exact hne (Option.some.inj hc)
  · intro wt bt hdisj
    unfold on_update_timer
    rw [hms]
    dsimp only
    rw [if_pos hact, if_pos rfl]
    by_cases hwt : wt ≤ 0
    · rw [if_pos hwt]
      refine ⟨_, (handle_match_end_main eloFn shuffle now
        { st with
            active_matches := aupdate st.active_matches mid
              { ms with white_time := wt, black_time := bt } }
        mid (some ms.black) (some "timeout")
        { ms with white_time := wt, black_time := bt } m
        (alookup_aupdate_self _ _ _) hact hm).2.1, rfl, Or.inr ⟨?_, ?_⟩⟩
      · dsimp only; rw [hbp]
      · dsimp only
        rw [hwp]
        intro hc
        exact (Ne.symm hne) (Option.some.inj hc)
    · have hbt : bt ≤ 0 := hdisj.resolve_left hwt
      rw [if_neg hwt, if_pos hbt]
      refine ⟨_, (handle_match_end_main eloFn shuffle now
        { st with
            active_matches := aupdate st.active_matches mid
              { ms with white_time := wt, black_time := bt } }
        mid (some ms.white) (some "timeout")
        { ms with white_time := wt, black_time := bt } m
        (alookup_aupdate_self _ _ _) hact hm).2.1, rfl, Or.inl ⟨?_, ?_⟩⟩
      · dsimp only; rw [hwp]
      · dsimp only
        rw [hbp]
        intro hc
        exact hne (Option.some.inj hc)

/-- Witness for the amended C3 at `c3State` with resigner "A". -/
theorem c3_amended_forced_winners_witness :
    (alookup c3State.active_matches 1 =
        some { room_code := "R1", white := "A", black := "B", white_time := 300,
               black_time := 300, turn := "w", fen := startFen,
               status := "active" } ∧
      findMatch c3State.matchRows 1 =
        some { id := 1, tournament_id := 1, round_name := "Friendly",
               white_player := "A", black_player := "B", winner := none,
               result := none, time_control := 300, status := "active",
               completed_at := none } ∧
      ("A" : String) ≠ "B") ∧
    ((("A" : String) = "A" ∨ ("A" : String) = "B") →
      ∃ m₂, findMatch (on_resign eloK16 idShuffle 4 c3State (some "A") 1).matchRows 1
          = some m₂ ∧ m₂.status = "completed" ∧
        ((m₂.winner = some m₂.white_player ∧ m₂.winner ≠ some m₂.black_player) ∨
         (m₂.winner = some m₂.black_player ∧ m₂.winner ≠ some m₂.white_player))) ∧
    (∀ wt bt : Int, wt ≤ 0 ∨ bt ≤ 0 →
      ∃ m₂, findMatch (on_update_timer eloK16 idShuffle 4 c3State (some "A") 1
          wt bt).matchRows 1 = some m₂ ∧ m₂.status = "completed" ∧
        ((m₂.winner = some m₂.white_player ∧ m₂.winner ≠ some m₂.black_player) ∨
         (m₂.winner = some m₂.black_player ∧ m₂.winner ≠ some m₂.white_player))) :=
  ⟨⟨by decide, by decide, by decide⟩,
    (c3_amended_forced_winners eloK16 idShuffle 4 c3State 1
      { room_code := "R1", white := "A", black := "B", white_time := 300,
        black_time := 300, turn := "w", fen := startFen, status := "active" }
      { id := 1, tournament_id := 1, round_name := "Friendly",
        white_player := "A", black_player := "B", winner := none,
        result := none, time_control := 300, status := "active",
        completed_at := none }
      "A" (by decide) (by decide) (by decide) (by decide) (by decide)
      (by decide)).1,
    (c3_amended_forced_winners eloK16 idShuffle 4 c3State 1
      { room_code := "R1", white := "A", black := "B", white_time := 300,
        black_time := 300, turn := "w", fen := startFen, status := "active" }
      { id := 1, tournament_id := 1, round_name := "Friendly",
        white_player := "A", black_player := "B", winner := none,
        result := none, time_control := 300, status := "active",
        completed_at := none }
      "A" (by decide) (by decide) (by decide) (by decide) (by decide)
      (by decide)).2⟩

/-- C4 (amended): `on_start_tournament` checks only that the caller is the
admin and that 2 to 10 players are present — it never checks the room or
tournament status.  The three rejections change nothing but the error
notification; whenever the guards pass (even on an already active or
completed tournament) the room is (re)activated and the tournament row is
rewritten with a fresh single-entry rounds log. -/
theorem c4_amended_start_guards (shuffle : List String → List String)
    (st : GState) (username : String) (rc : String) (tc : Int) (room : Room)
    (hr : alookup st.rooms rc = some room) :
    (username ≠ room.admin →
      on_start_tournament shuffle st (some username) rc tc =
        { st with events := st.events ++
            [Event.errorMsg "Only admin can start tournament"] }) ∧
    (username = room.admin → room.players.length < 2 →
      on_start_tournament shuffle st (some username) rc tc =
        { st with events := st.events ++
            [Event.errorMsg "Need at least 2 players to start"] }) ∧
    (username = room.admin → room.players.length > 10 →
      on_start_tournament shuffle st (some username) rc tc =
        { st with events := st.events ++
            [Event.errorMsg "Maximum 10 players allowed"] }) ∧
    (∀ t, username = room.admin → 2 ≤ room.players.length →
      room.players.length ≤ 10 →
      findT st.tournaments room.tournament_id = some t →
      (∃ room₂, alookup (on_start_tournament shuffle st (some username) rc
          tc).rooms rc = some room₂ ∧ room₂.status = "active") ∧
      (∃ t₂, findT (on_start_tournament shuffle st (some username) rc
          tc).tournaments room.tournament_id = some t₂ ∧
          t₂.status = "active" ∧ t₂.rounds.length = 1)) := by
  unfold on_start_tournament
  rw [hr]
  dsimp only
  refine ⟨fun hadmin => ?_, fun hadmin hlt => ?_, fun hadmin hgt => ?_,
    fun t hadmin h2 h10 ht => ?_⟩
  · rw [if_pos hadmin]
  · rw [if_neg (by simp [hadmin])]
    simp only [List.length_map]
    rw [if_pos hlt]
  · rw [if_neg (by simp [hadmin])]
    simp only [List.length_map]
    rw [if_neg (by omega), if_pos hgt]
  · rw [if_neg (by simp [hadmin])]
    simp only [List.length_map]
    rw [if_neg (by omega), if_neg (by omega)]
    rw [ht]
    dsimp only
    obtain ⟨⟨_, _, _, htour, _⟩, -⟩ := buildRound_frame
      room.tournament_id (get_round_name room.players.length) tc
      (generate_bracket shuffle (room.players.map (fun p => p.1)))
      { st with
          rooms := aupdate st.rooms rc
            { room with status := "active", default_time := tc } } []
    obtain ⟨lr, lt, -⟩ := startMatchesLoop_frame rc room.players tc
      (buildRound room.tournament_id (get_round_name room.players.length) tc
        (generate_bracket shuffle (room.players.map (fun p => p.1)))
        { st with
            rooms := aupdate st.rooms rc
              { room with status := "active", default_time := tc } } []).2 _
    constructor
    · rw [lr]
      exact ⟨{ room with
          status := "active", default_time := tc,
          bracket := (buildRound room.tournament_id
            (get_round_name room.players.length) tc
            (generate_bracket shuffle (room.players.map (fun p => p.1)))
            { st with
                rooms := aupdate st.rooms rc
                  { room with status := "active", default_time := tc } } []).2 },
        alookup_aupdate_self _ _ _, rfl⟩
    · rw [lt]
      have htour₂ : (buildRound room.tournament_id
          (get_round_name room.players.length) tc
          (generate_bracket shuffle (room.players.map (fun p => p.1)))
          { st with
              rooms := aupdate st.rooms rc
                { room with status := "active", default_time := tc } }
          []).1.tournaments = st.tournaments := htour
      have hfind : findT (updateT (buildRound room.tournament_id
          (get_round_name room.players.length) tc
          (generate_bracket shuffle (room.players.map (fun p => p.1)))
          { st with
              rooms := aupdate st.rooms rc
                { room with status := "active", default_time := tc } }
          []).1.tournaments
          room.tournament_id (fun t₂ =>
            { t₂ with status := "active",
                      participants := room.players.map (fun p => p.1),
                      current_round := get_round_name room.players.length,
                      rounds := [(get_round_name room.players.length,
                        generate_bracket shuffle
                          (room.players.map (fun p => p.1)))] }))
          room.tournament_id = some
            { t with status := "active",
                     participants := room.players.map (fun p => p.1),
                     current_round := get_round_name room.players.length,
                     rounds := [(get_round_name room.players.length,
                       generate_bracket shuffle
                         (room.players.map (fun p => p.1)))] } := by
        rw [findT_updateT _ _ _ _ (by intro x; rfl), htour₂, ht]
        simp [findT_some_id _ _ _ ht]
      exact ⟨_, hfind, rfl, rfl⟩

/-- Witness for the amended C4 at `c4State` (admin restart of an active
tournament). -/
theorem c4_amended_start_guards_witness :
    (alookup c4State.rooms "R1" =
      some { tournament_id := 1, admin := "alice",
             players := [("alice", 1), ("bob", 2)], match_requests := [],
             bracket :=
               [{ white := "alice", black := "bob", winner := none,
                  status := "pending", match_id := some 1 }],
             status := "active", default_time := 300 }) ∧
    (("alice" : String) = "alice" → (2 : Nat) ≤ 2 → (2 : Nat) ≤ 10 →
      findT c4State.tournaments 1 =
        some { id := 1, room_code := "R1", admin_username := "alice",
               status := "active", participants := ["alice", "bob"],
               winner_username := none, current_round := "Final",
               rounds := [("Semi Final", [("alice", "bob"), ("carol", "BYE")]),
                          ("Final", [("alice", "bob")])],
               completed_at := none } →
      (∃ room₂, alookup (on_start_tournament idShuffle c4State (some "alice")
          "R1" 300).rooms "R1" = some room₂ ∧ room₂.status = "active") ∧
      (∃ t₂, findT (on_start_tournament idShuffle c4State (some "alice")
          "R1" 300).tournaments 1 = some t₂ ∧ t₂.status = "active" ∧
          t₂.rounds.length = 1)) :=
  ⟨by decide,
    fun h₁ h₂ h₃ h₄ =>
      (c4_amended_start_guards idShuffle c4State "alice" "R1" 300
        { tournament_id := 1, admin := "alice",
          players := [("alice", 1), ("bob", 2)], match_requests := [],
          bracket :=
            [{ white := "alice", black := "bob", winner := none,
               status := "pending", match_id := some 1 }],
          status := "active", default_time := 300 }
        (by decide)).2.2.2
        { id := 1, room_code := "R1", admin_username := "alice",
          status := "active", participants := ["alice", "bob"],
          winner_username := none, current_round := "Final",
          rounds := [("Semi Final", [("alice", "bob"), ("carol", "BYE")]),
                     ("Final", [("alice", "bob")])],
          completed_at := none }
        h₁ h₂ h₃ h₄⟩

/-- C5 (amended): a join of an existing room succeeds after the tournament
has started only when the username is still a key of the room's in-memory
`players` mapping; when the tournament is active and the username is not in
that mapping — e.g. a participant who disconnected — the join is rejected
with the in-progress error, the membership test being the players dict and
not `Tournament.participants`. -/
theorem c5_amended_join_membership (st : GState) (username : String) (sid : Nat)
    (rc : String) (room : Room)
    (hr : alookup st.rooms rc = some room) :
    (room.status ≠ "waiting" → alookup room.players username = none →
      on_join_room st (some username) sid rc =
        { st with events := st.events ++
            [Event.errorMsg "Tournament already in progress"] }) ∧
    ((alookup room.players username).isSome →
      ∃ room₂, alookup (on_join_room st (some username) sid rc).rooms rc =
          some room₂ ∧ alookup room₂.players username = some sid) := by
  unfold on_join_room
  rw [hr]
  dsimp only
  constructor
  · intro h1 h2
    rw [if_pos ⟨h1, h2⟩]
  · intro hsome
    have h2 : ¬ (room.status ≠ "waiting" ∧ alookup room.players username = none) := by
      rintro ⟨-, hnone⟩
      rw [hnone] at hsome
      simp at hsome
    have h3 : ¬ (room.players.length ≥ 10 ∧
        alookup room.players username = none) := by
      rintro ⟨-, hnone⟩
      rw [hnone] at hsome
      simp at hsome
    rw [if_neg h2, if_neg h3]
    split
    · exact ⟨{ room with players := aupdate room.players username sid },
        alookup_aupdate_self _ _ _, alookup_aupdate_self _ _ _⟩
    · exact ⟨{ room with players := aupdate room.players username sid },
        alookup_aupdate_self _ _ _, alookup_aupdate_self _ _ _⟩

/-- Witness for the amended C5 at `c5State` — the rejection of disconnected
participant "alice", and the rejoin of still-connected "bob". -/
theorem c5_amended_join_membership_witness :
    (alookup c5State.rooms "R1" =
      some { tournament_id := 1, admin := "alice", players := [("bob", 2)],
             match_requests := [], bracket := [], status := "active",
             default_time := 300 }) ∧
    (("active" : String) ≠ "waiting" →
      alookup ([("bob", 2)] : List (String × Nat)) "alice" = none →
      on_join_room c5State (some "alice") 9 "R1" =
        { c5State with events := c5State.events ++
            [Event.errorMsg "Tournament already in progress"] }) ∧
    ((alookup ([("bob", 2)] : List (String × Nat)) "bob").isSome →
      ∃ room₂, alookup (on_join_room c5State (some "bob") 5 "R1").rooms "R1" =
          some room₂ ∧ alookup room₂.players "bob" = some 5) :=
  ⟨by decide,
    (c5_amended_join_membership c5State "alice" 9 "R1"
      { tournament_id := 1, admin := "alice", players := [("bob", 2)],
        match_requests := [], bracket := [], status := "active",
        default_time := 300 } (by decide)).1,
    (c5_amended_join_membership c5State "bob" 5 "R1"
      { tournament_id := 1, admin := "alice", players := [("bob", 2)],
        match_requests := [], bracket := [], status := "active",
        default_time := 300 } (by decide)).2⟩

/-- C6 (amended): admin removal of a present target pops the target's
connection from the room's players and emits the kicked notice and a roster
update — and nothing else: `Tournament.participants` is left untouched
(even while the tournament is still waiting) and no `player_left` event is
broadcast, unlike the cleanup performed by `leave`/disconnect. -/
theorem c6_amended_admin_remove (st : GState) (username rc target : String)
    (room : Room) (sid : Nat)
    (hr : alookup st.rooms rc = some room)
    (hadmin : username = room.admin)
    (ht : alookup room.players target = some sid) :
    (∃ room₂, alookup (on_remove_player st (some username) rc target).rooms rc =
        some room₂ ∧ alookup room₂.players target = none) ∧
    (on_remove_player st (some username) rc target).tournaments =
      st.tournaments ∧
    (on_remove_player st (some username) rc target).users = st.users ∧
    (on_remove_player st (some username) rc target).events =
      st.events ++ [Event.kicked sid, Event.roomEvent rc "room_update"] := by
  unfold on_remove_player
  rw [hr]
  dsimp only
  rw [if_neg (by simp [hadmin])]
  rw [ht]
  dsimp only
  refine ⟨⟨{ room with players := aerase room.players target }, ?_, ?_⟩,
    rfl, rfl, ?_⟩
  · exact alookup_aupdate_self _ _ _
  · exact alookup_aerase_self _ _
  · unfold emit_room_update roomUpdateEvents
    dsimp only
    rw [alookup_aupdate_self]
    simp

/-- Witness for the amended C6 at `c6State` (admin "alice" removes "bob"). -/
theorem c6_amended_admin_remove_witness :
    (alookup c6State.rooms "R1" =
        some { tournament_id := 1, admin := "alice",
               players := [("alice", 1), ("bob", 2)], match_requests := [],
               bracket := [], status := "waiting", default_time := 300 } ∧
      ("alice" : String) = "alice" ∧
      alookup ([("alice", 1), ("bob", 2)] : List (String × Nat)) "bob" =
        some 2) ∧
    ((∃ room₂, alookup (on_remove_player c6State (some "alice") "R1"
        "bob").rooms "R1" = some room₂ ∧ alookup room₂.players "bob" = none) ∧
      (on_remove_player c6State (some "alice") "R1" "bob").tournaments =
        c6State.tournaments ∧
      (on_remove_player c6State (some "alice") "R1" "bob").users =
        c6State.users ∧
      (on_remove_player c6State (some "alice") "R1" "bob").events =
        c6State.events ++
          [Event.kicked 2, Event.roomEvent "R1" "room_update"]) :=
  ⟨⟨by decide, by decide, by decide⟩,
    c6_amended_admin_remove c6State "alice" "R1" "bob"
      { tournament_id := 1, admin := "alice",
        players := [("alice", 1), ("bob", 2)], match_requests := [],
        bracket := [], status := "waiting", default_time := 300 }
      2 (by decide) (by decide) (by decide)⟩

end ChessArena
